import Mathlib

/-!
Verification of the browser-side scripts of the geoscale-healthflow ETL
repository.  The JavaScript sources are shallowly embedded: each page-level
script becomes a pure state-transition function over an explicit model of the
page (DOM items and sections, the `uploadStatus` object, session storage,
timers and an append-only event trace recording toasts, alerts, network
requests and button mutations).  Machine-level JS values are modelled as
follows: JS objects used as string maps become insertion-ordered association
lists, `undefined` becomes `Option.none`, truthiness of response fields is
modelled by `Bool`/`Option`, and fallible operations return `Option`.
-/

/-! ## JS objects as insertion-ordered association lists

A JavaScript object used as a flat string-to-string map (`uploadStatus`,
`sessionStorage`) is an insertion-ordered association list: property read
returns the value of the first matching key, property write updates an
existing key in place and otherwise appends. -/

/-- JS property read `m[k]`: `none` models `undefined`. -/
def objGet : List (String × String) → String → Option String
  | [], _ => none
  | (k0, v0) :: rest, k => if k0 = k then some v0 else objGet rest k

/-- JS property write `m[k] = v`: update in place, else append. -/
def objSet : List (String × String) → String → String → List (String × String)
  | [], k, v => [(k, v)]
  | (k0, v0) :: rest, k, v =>
      if k0 = k then (k0, v) :: rest else (k0, v0) :: objSet rest k v

/-- JS coercion of a possibly-`undefined` string to a string
(`undefined` prints as `"undefined"` when used in string positions). -/
def jsUndef : Option String → String
  | none => "undefined"
  | some s => s

theorem objGet_objSet_self (m : List (String × String)) (k v : String) :
    objGet (objSet m k v) k = some v := by
  induction m with
  | nil => simp [objGet, objSet]
  | cons p rest ih =>
      by_cases h : p.1 = k
      · simp [objGet, objSet, h]
      · simp [objGet, objSet, h, ih]

theorem objSet_objGet_self (m : List (String × String)) (k v : String)
    (h : objGet m k = some v) : objSet m k v = m := by
  induction m with
  | nil => simp [objGet] at h
  | cons p rest ih =>
      obtain ⟨k0, v0⟩ := p
      by_cases hk : k0 = k
      · subst hk
        simp [objGet] at h
        simp [objSet, h]
      · simp [objGet, hk] at h
        simp [objSet, hk, ih h]

theorem objGet_isSome_of_mem_keys (m : List (String × String)) (k : String)
    (h : k ∈ m.map Prod.fst) : ∃ v, objGet m k = some v := by
  induction m with
  | nil => simp at h
  | cons p rest ih =>
      obtain ⟨k0, v0⟩ := p
      by_cases hk : k0 = k
      · exact ⟨v0, by simp [objGet, hk]⟩
      · simp only [List.map_cons, List.mem_cons] at h
        rcases h with h | h
        · exact absurd h.symm hk
        · obtain ⟨v, hv⟩ := ih h
          exact ⟨v, by simp [objGet, hk, hv]⟩

theorem objSet_keys_of_mem (m : List (String × String)) (k v : String)
    (h : k ∈ m.map Prod.fst) :
    (objSet m k v).map Prod.fst = m.map Prod.fst := by
  induction m with
  | nil => simp at h
  | cons p rest ih =>
      obtain ⟨k0, v0⟩ := p
      by_cases hk : k0 = k
      · simp [objSet, hk]
      · simp only [List.map_cons, List.mem_cons] at h
        rcases h with h | h
        · exact absurd h.symm hk
        · simp [objSet, hk, ih h]

theorem objSet_mem (m : List (String × String)) (k v : String)
    (p : String × String) (h : p ∈ objSet m k v) : p.2 = v ∨ p ∈ m := by
  induction m with
  | nil => simp [objSet] at h; simp [h]
  | cons q rest ih =>
      by_cases hk : q.1 = k
      · simp [objSet, hk] at h
        rcases h with h | h
        · left; simp [h]
        · right; simp [h]
      · simp [objSet, hk] at h
        rcases h with h | h
        · right; simp [h]
        · rcases ih h with h' | h'
          · left; exact h'
          · right; simp [h']

/-! ## JSON serialization of flat string maps

`saveUploadStatus` stores `JSON.stringify(uploadStatus)` under the session
key `'uploadStatus'` and `loadUploadStatus` reads it back through
`JSON.parse`.  The two browser built-ins are modelled here for flat
string-to-string objects: `stringifyFlat` emits `{"k":"v",...}` in insertion
order escaping quote and backslash characters (the JSON escapes actually
produced for the status maps, whose strings contain no control characters),
and `parseFlat` is the inverse recursive-descent reader. -/

def escapeJsonChar (c : Char) : List Char :=
  if c = '"' then ['\\', '"']
  else if c = '\\' then ['\\', '\\']
  else [c]

def escapeChars : List Char → List Char
  | [] => []
  | c :: cs => escapeJsonChar c ++ escapeChars cs

/-- One JSON object member `"k":"v"`. -/
def pairChars (p : String × String) : List Char :=
  '"' :: (escapeChars p.1.data ++ '"' :: ':' :: '"' :: (escapeChars p.2.data ++ ['"']))

/-- Comma-separated members of the object body. -/
def membersChars : List (String × String) → List Char
  | [] => []
  | [p] => pairChars p
  | p :: ps => pairChars p ++ ',' :: membersChars ps

/-- Model of `JSON.stringify` on a flat string-to-string object. -/
def stringifyFlat (m : List (String × String)) : String :=
  String.mk ('{' :: (membersChars m ++ ['}']))

/-- Read a JSON string body up to the closing quote, undoing escapes. -/
def parseStringBody : List Char → Option (List Char × List Char)
  | [] => none
  | c :: rest =>
      if c = '"' then some ([], rest)
      else if c = '\\' then
        match rest with
        | [] => none
        | e :: rest2 =>
            if e = '"' ∨ e = '\\' then
              match parseStringBody rest2 with
              | some (s, r) => some (e :: s, r)
              | none => none
            else none
      else
        match parseStringBody rest with
        | some (s, r) => some (c :: s, r)
        | none => none

/-- Read one `"k":"v"` member. -/
def parseMember (l : List Char) : Option ((String × String) × List Char) :=
  match l with
  | '"' :: r0 =>
      match parseStringBody r0 with
      | none => none
      | some (k, r1) =>
          match r1 with
          | ':' :: '"' :: r2 =>
              match parseStringBody r2 with
              | none => none
              | some (v, r3) => some ((String.mk k, String.mk v), r3)
          | _ => none
  | _ => none

/-- Read a comma-separated member list (fuelled recursion; the fuel is the
input length, which bounds the member count). -/
def parseMembersF : Nat → List Char → Option (List (String × String) × List Char)
  | 0, _ => none
  | n + 1, l =>
      match parseMember l with
      | none => none
      | some (p, r) =>
          match r with
          | ',' :: r2 =>
              match parseMembersF n r2 with
              | some (ps, r3) => some (p :: ps, r3)
              | none => none
          | _ => some ([p], r)

/-- Model of `JSON.parse` on the serialized form of a flat string map;
`none` models a thrown `SyntaxError`. -/
def parseFlat (s : String) : Option (List (String × String)) :=
  match s.data with
  | '{' :: rest =>
      match rest with
      | ['}'] => some []
      | _ =>
          match parseMembersF s.data.length rest with
          | some (ps, ['}']) => some ps
          | _ => none
  | _ => none

theorem parseStringBody_escape (s r : List Char) :
    parseStringBody (escapeChars s ++ '"' :: r) = some (s, r) := by
  induction s with
  | nil =>
      simp only [escapeChars, List.nil_append]
      rw [parseStringBody.eq_def]
      simp
  | cons c cs ih =>
      by_cases h1 : c = '"'
      · subst h1
        have he : escapeChars ('"' :: cs) ++ '"' :: r
            = '\\' :: '"' :: (escapeChars cs ++ '"' :: r) := by
          simp [escapeChars, escapeJsonChar]
        rw [he, parseStringBody.eq_def]
        simp [ih]
      · by_cases h2 : c = '\\'
        · subst h2
          have he : escapeChars ('\\' :: cs) ++ '"' :: r
              = '\\' :: '\\' :: (escapeChars cs ++ '"' :: r) := by
            simp [escapeChars, escapeJsonChar]
          rw [he, parseStringBody.eq_def]
          simp [ih]
        · have he : escapeChars (c :: cs) ++ '"' :: r
              = c :: (escapeChars cs ++ '"' :: r) := by
            simp [escapeChars, escapeJsonChar, h1, h2]
          rw [he, parseStringBody.eq_def]
          simp [h1, h2, ih]

theorem parseMember_pair (p : String × String) (r : List Char) :
    parseMember (pairChars p ++ r) = some (p, r) := by
  obtain ⟨k, v⟩ := p
  simp only [pairChars, List.cons_append, List.append_assoc]
  simp [parseMember, parseStringBody_escape]

theorem parseMembersF_members : ∀ (m : List (String × String)) (n : Nat),
    m ≠ [] → m.length ≤ n →
      parseMembersF n (membersChars m ++ ['}']) = some (m, ['}'])
  | [], _, h, _ => absurd rfl h
  | _ :: _, 0, _, hlen => by simp at hlen
  | [p], n + 1, _, _ => by
      simp [membersChars, parseMembersF, parseMember_pair]
  | p :: q :: qs, n + 1, _, hlen => by
      have hrec := parseMembersF_members (q :: qs) n (by simp)
        (by simp at hlen ⊢; omega)
      have he : membersChars (p :: q :: qs) ++ ['}']
          = pairChars p ++ (',' :: (membersChars (q :: qs) ++ ['}'])) := by
        simp [membersChars]
      rw [he]
      simp [parseMembersF, parseMember_pair, hrec]

theorem length_le_membersChars : ∀ (m : List (String × String)),
    m.length ≤ (membersChars m).length + 2
  | [] => by simp
  | [p] => by simp [membersChars]
  | p :: q :: qs => by
      have ih := length_le_membersChars (q :: qs)
      simp only [membersChars, List.length_append, List.length_cons] at ih ⊢
      omega

theorem membersChars_cons_head (p : String × String)
    (ps : List (String × String)) :
    ∃ t, membersChars (p :: ps) = '"' :: t := by
  cases ps with
  | nil => exact ⟨_, rfl⟩
  | cons q qs => exact ⟨_, rfl⟩

theorem stringData_mk (l : List Char) : (String.mk l).data = l := rfl

/-- `JSON.parse ∘ JSON.stringify` restores a flat string map exactly. -/
theorem parseFlat_stringifyFlat (m : List (String × String)) :
    parseFlat (stringifyFlat m) = some m := by
  cases m with
  | nil => rfl
  | cons p ps =>
      obtain ⟨t, ht⟩ := membersChars_cons_head p ps
      have hlen : (p :: ps).length ≤ t.length + 1 + 1 + 1 := by
        have h2 := length_le_membersChars (p :: ps)
        rw [ht] at h2
        simp only [List.length_cons] at h2 ⊢
        omega
      have hmem := parseMembersF_members (p :: ps) (t.length + 1 + 1 + 1)
        (by simp) hlen
      rw [ht] at hmem
      simp only [List.cons_append] at hmem
      simp only [stringifyFlat, ht, parseFlat, stringData_mk, List.cons_append,
        List.length_cons, List.length_append, List.length_singleton]
      simp [hmem]

/-! ## Observable effects

Each script action appends primitive events (network requests, notifications,
console output, timer bookkeeping, button mutations) to an event trace, and
registers pending `setTimeout` callbacks in a timer list. -/

inductive Event where
  | fetchPost (url : String) (body : List (String × String))
  | fetchGet (url : String)
  | nativeSubmit
  | toastShown (msg kind : String)
  | alertShown (msg kind : String)
  | consoleWarn (msg : String)
  | consoleError (msg : String)
  | intervalStarted (ms : Nat)
  | intervalCleared
  | progressSet (pct : Nat) (msg : String)
  | btnSetDisabled (sectionId : String) (val : Bool)
  | btnSetLabel (sectionId : String) (label : String)
  | analyticsTracked (action formType : String)
  | statsUpdated
  | coordUpdated
  | finalStatsUpdated
  deriving Repr, DecidableEq

inductive TimerTask where
  | removeToast
  | selectNext
  | celebrate
  | restoreButton (sectionId : String) (label : String)
  | removeAlert
  deriving Repr, DecidableEq

/-! ## DOM model of the upload pages

The upload pages consist of sidebar `.upload-item` entries (with a
`data-upload` attribute, a `.status-badge` and `.status-icon` children) and
`.upload-section` form containers (with id `<type>-form`, form inputs and a
`.submit-btn` carrying `data-upload-type`). -/

structure StatusIcon where
  classes : List String
  displayed : Bool
  deriving Repr, DecidableEq

structure UploadItem where
  upload : Option String
  classes : List String
  badge : Option (String × String)
  icons : List StatusIcon
  deriving Repr, DecidableEq

structure SubmitButton where
  uploadType : Option String
  disabled : Bool
  label : String
  background : String
  classes : List String
  deriving Repr, DecidableEq

structure FormInput where
  disabled : Bool
  deriving Repr, DecidableEq

structure UploadSection where
  id : String
  classes : List String
  inputs : List FormInput
  submitBtn : Option SubmitButton
  formAction : String
  deriving Repr, DecidableEq

/-- Whole-page state of the user upload dashboard: the DOM pieces the script
touches, the `uploadStatus` object, per-tab session storage, the progress and
session indicators (rendered from completed/total counts), pending timers,
the completion modal flag and the event trace. -/
structure PageState where
  items : List UploadItem
  sections : List UploadSection
  uploadStatus : List (String × String)
  sessionStorage : List (String × String)
  progressBar : Option (Nat × Nat)
  sessionIndicator : Option (Nat × Nat)
  modalShown : Bool
  timers : List (Nat × TimerTask)
  events : List Event
  deriving Repr, DecidableEq

def emit (st : PageState) (e : Event) : PageState :=
  { st with events := st.events ++ [e] }

def addTimer (st : PageState) (ms : Nat) (task : TimerTask) : PageState :=
  { st with timers := st.timers ++ [(ms, task)] }

/-- `classList.add`: a DOMTokenList holds no duplicates. -/
def addClass (cs : List String) (c : String) : List String :=
  if c ∈ cs then cs else cs ++ [c]

/-- `classList.remove`. -/
def removeClass (cs : List String) (c : String) : List String :=
  cs.filter (fun x => x ≠ c)

/-- `classList.remove('available', 'processing', 'completed', 'disabled')`. -/
def removeStatusClasses (cs : List String) : List String :=
  removeClass (removeClass (removeClass (removeClass cs "available")
    "processing") "completed") "disabled"

def modifyItem (st : PageState) (i : Nat) (f : UploadItem → UploadItem) :
    PageState :=
  match st.items.get? i with
  | some it => { st with items := st.items.set i (f it) }
  | none => st

def modifySection (st : PageState) (j : Nat) (f : UploadSection → UploadSection) :
    PageState :=
  match st.sections.get? j with
  | some s => { st with sections := st.sections.set j (f s) }
  | none => st

/-- Index of the first list entry satisfying the predicate (document order,
as `querySelector` resolves). -/
def domFind? {α : Type} (p : α → Bool) : List α → Option Nat
  | [] => none
  | x :: xs => if p x then some 0 else (domFind? p xs).map (fun n => n + 1)

/-- `document.querySelector('[data-upload="<t>"]')` as an index. -/
def findItemIdx (st : PageState) (uploadType : String) : Option Nat :=
  domFind? (fun it => it.upload == some uploadType) st.items

/-- `document.getElementById(domId)` over the upload sections, as an index. -/
def findSectionIdx (st : PageState) (domId : String) : Option Nat :=
  domFind? (fun s => s.id == domId) st.sections

/-! ## user-upload_app.js: upload status tracking and form handling -/

/-- The four upload-category names, in declaration order. -/
def uploadCategories : List String :=
  ["health-center", "hmis-api", "temperature", "precipitation"]

/-- The four status labels a category may carry. -/
def validStatusLabels : List String :=
  ["available", "processing", "completed", "disabled"]

/-- Initial `uploadStatus` object (lines 7-12). -/
def initialUploadStatus : List (String × String) :=
  [("health-center", "available"), ("hmis-api", "available"),
   ("temperature", "available"), ("precipitation", "available")]

/-- `saveUploadStatus`: `sessionStorage.setItem('uploadStatus',
JSON.stringify(uploadStatus))`. -/
def saveUploadStatus (st : PageState) : PageState :=
  { st with sessionStorage :=
      objSet st.sessionStorage "uploadStatus" (stringifyFlat st.uploadStatus) }

/-- `statusTexts[status] || 'AVAILABLE'` in `updateStatusBadge`. -/
def statusBadgeText (status : String) : String :=
  if status = "available" then "AVAILABLE"
  else if status = "processing" then "UPLOADING"
  else if status = "completed" then "COMPLETED"
  else if status = "disabled" then "DISABLED"
  else "AVAILABLE"

/-- `updateStatusBadge`: rewrite the `.status-badge` child, when present. -/
def updateStatusBadge (it : UploadItem) (status : String) : UploadItem :=
  match it.badge with
  | none => it
  | some _ =>
      { it with badge := some (statusBadgeText status, "status-badge " ++ status) }

/-- Display the first `.status-icon.<status>` icon (querySelector order). -/
def displayFirstMatching : List StatusIcon → String → List StatusIcon
  | [], _ => []
  | ic :: rest, status =>
      if status ∈ ic.classes then { ic with displayed := true } :: rest
      else ic :: displayFirstMatching rest status

/-- `updateStatusIcon`: hide every `.status-icon`, then show the one whose
class list carries the status. -/
def updateStatusIcon (it : UploadItem) (status : String) : UploadItem :=
  let hidden := it.icons.map (fun ic => { ic with displayed := false })
  { it with icons := displayFirstMatching hidden status }

/-- `getOriginalButtonText`: `buttonTexts[uploadType] || '📤 Upload Data'`. -/
def getOriginalButtonText (uploadType : Option String) : String :=
  match uploadType with
  | some "health-center" => "📤 Upload Health Records"
  | some "hmis-api" => "📤 Upload HMIS Data"
  | some "temperature" => "📤 Upload Temperature Data"
  | some "precipitation" => "📤 Upload Precipitation Data"
  | _ => "📤 Upload Data"

def setInputsDisabled (inputs : List FormInput) (b : Bool) : List FormInput :=
  inputs.map (fun _ => { disabled := b })

/-- `updateFormState(uploadSection, status)`: disable or enable the section's
inputs and submit button and set the button label/background.  Button
mutations are traced as events carrying the section id. -/
def updateFormState (st : PageState) (j : Nat) (status : String) : PageState :=
  match st.sections.get? j with
  | none => st
  | some sec =>
      if status = "completed" ∨ status = "disabled" then
        let sec1 := { sec with inputs := setInputsDisabled sec.inputs true }
        match sec1.submitBtn with
        | none => { st with sections := st.sections.set j sec1 }
        | some btn =>
            let lbl := if status = "completed" then "✅ Upload Completed"
              else "🚫 Upload Disabled"
            let bg := if status = "completed" then "#28a745" else "#6c757d"
            let newBtn := { btn with disabled := true, label := lbl, background := bg }
            let sec2 := { sec1 with submitBtn := some newBtn }
            emit (emit { st with sections := st.sections.set j sec2 }
              (.btnSetDisabled sec.id true)) (.btnSetLabel sec.id lbl)
      else
        let sec1 := { sec with inputs := setInputsDisabled sec.inputs false }
        match sec1.submitBtn with
        | none => { st with sections := st.sections.set j sec1 }
        | some btn =>
            let lbl := getOriginalButtonText btn.uploadType
            let newBtn := { btn with disabled := false, label := lbl, background := "" }
            let sec2 := { sec1 with submitBtn := some newBtn }
            emit (emit { st with sections := st.sections.set j sec2 }
              (.btnSetDisabled sec.id false)) (.btnSetLabel sec.id lbl)

/-- `updateProgressBar`: width of `.progress-bar` is the completed/total
ratio; the pair of counts is stored. -/
def updateProgressBar (st : PageState) : PageState :=
  let total := st.uploadStatus.length
  let completedCount := (st.uploadStatus.filter (fun p => p.2 == "completed")).length
  match st.progressBar with
  | none => st
  | some _ => { st with progressBar := some (completedCount, total) }

/-- `updateSessionStatus` via `getSessionStatusText` (completed/total). -/
def updateSessionStatus (st : PageState) : PageState :=
  let total := st.uploadStatus.length
  let completedCount := (st.uploadStatus.filter (fun p => p.2 == "completed")).length
  match st.sessionIndicator with
  | none => st
  | some _ => { st with sessionIndicator := some (completedCount, total) }

/-- `updateUploadState(uploadType, status)` (lines 78-109): locate the
sidebar item and its form section; on failure warn and return, otherwise
swap status classes, update badge, icon and form state, write the status
into `uploadStatus`, persist it, and refresh the progress indicators. -/
def updateUploadState (st : PageState) (uploadType status : String) : PageState :=
  match findItemIdx st uploadType, findSectionIdx st (uploadType ++ "-form") with
  | some i, some j =>
      let st1 := modifyItem st i
        (fun it => { it with classes := removeStatusClasses it.classes })
      let st2 := modifySection st1 j
        (fun s => { s with classes := removeStatusClasses s.classes })
      let st3 := modifyItem st2 i
        (fun it => { it with classes := addClass it.classes status })
      let st4 := modifySection st3 j
        (fun s => { s with classes := addClass s.classes status })
      let st5 := modifyItem st4 i (fun it => updateStatusBadge it status)
      let st6 := modifyItem st5 i (fun it => updateStatusIcon it status)
      let st7 := updateFormState st6 j status
      let st8 := { st7 with uploadStatus := objSet st7.uploadStatus uploadType status }
      let st9 := saveUploadStatus st8
      updateSessionStatus (updateProgressBar st9)
  | _, _ =>
      emit st (.consoleWarn ("Could not find elements for upload type: " ++ uploadType))

/-- `getToastColor`. -/
def getToastColor (ty : String) : String :=
  if ty = "success" then "#28a745"
  else if ty = "error" then "#dc3545"
  else if ty = "warning" then "#ffc107"
  else "#17a2b8"

/-- `showToast(message, type)`: append a toast element and schedule its
removal after 4 seconds (the fade-in/fade-out sub-timers are folded into the
single removal timer). -/
def showToast (st : PageState) (msg ty : String) : PageState :=
  addTimer (emit st (.toastShown msg ty)) 4000 .removeToast

/-- `handleSectionSwitch(clickedItem)` (lines 253-271): deactivate every item
and section, activate the clicked item, then activate the form whose id is
`<uploadType>-form` when it exists. -/
def handleSectionSwitch (st : PageState) (clickedIdx : Nat) : PageState :=
  match st.items.get? clickedIdx with
  | none => st
  | some item =>
      let st1 := { st with
        items := st.items.map
          (fun it => { it with classes := removeClass it.classes "active" }),
        sections := st.sections.map
          (fun s => { s with classes := removeClass s.classes "active" }) }
      let st2 := modifyItem st1 clickedIdx
        (fun it => { it with classes := addClass it.classes "active" })
      match findSectionIdx st2 (jsUndef item.upload ++ "-form") with
      | some j => modifySection st2 j
          (fun s => { s with classes := addClass s.classes "active" })
      | none => st2

/-- Sidebar click listener installed by `setupSidebarNavigation`
(lines 226-247): switch only when the clicked item's status is neither
'completed' nor 'disabled', otherwise show an informational toast. -/
def uploadItemClick (st : PageState) (idx : Nat) : PageState :=
  match st.items.get? idx with
  | none => st
  | some item =>
      let status := objGet st.uploadStatus (jsUndef item.upload)
      if status ≠ some "completed" ∧ status ≠ some "disabled" then
        handleSectionSwitch st idx
      else if status = some "completed" then
        showToast st "This upload has already been completed!" "info"
      else
        showToast st "This upload section is currently disabled." "warning"

/-- `selectNextAvailableUpload`: activate the first
`.upload-item:not(.completed):not(.disabled)` and switch to its section. -/
def selectNextAvailableUpload (st : PageState) : PageState :=
  match domFind? (fun it =>
      !(it.classes.contains "completed") && !(it.classes.contains "disabled"))
      st.items with
  | none => st
  | some i =>
      let cleared := st.items.map
        (fun it => { it with classes := removeClass it.classes "active" })
      let st1 := { st with items := cleared }
      let st2 := modifyItem st1 i
        (fun it => { it with classes := addClass it.classes "active" })
      handleSectionSwitch st2 i

/-- `checkAllUploadsCompleted` (lines 394-405): when every value of
`uploadStatus` is 'completed' or 'disabled', schedule the celebration
(completion toast plus completion modal) after 2 seconds. -/
def checkAllUploadsCompleted (st : PageState) : PageState :=
  let allCompleted := st.uploadStatus.all
    (fun p => p.2 == "completed" || p.2 == "disabled")
  if allCompleted then addTimer st 2000 .celebrate else st

/-- `showCompletionModal`. -/
def showCompletionModal (st : PageState) : PageState :=
  { st with modalShown := true }

/-- Firing the scheduled celebration: the completion toast, then the modal. -/
def fireCelebrate (st : PageState) : PageState :=
  showCompletionModal
    (showToast st "🎉 All uploads completed successfully!" "success")

/-- `getUploadDisplayName`. -/
def getUploadDisplayName (uploadType : String) : String :=
  if uploadType = "health-center" then "Health Center Data"
  else if uploadType = "hmis-api" then "HMIS API Data"
  else if uploadType = "temperature" then "Temperature Data"
  else if uploadType = "precipitation" then "Precipitation Data"
  else "Data"

/-- `handleUploadSuccess(uploadType)` (lines 350-364). -/
def handleUploadSuccess (st : PageState) (uploadType : String) : PageState :=
  let st1 := updateUploadState st uploadType "completed"
  let st2 := showToast st1
    (getUploadDisplayName uploadType ++ " uploaded successfully! ✅") "success"
  let st3 := addTimer st2 1500 .selectNext
  checkAllUploadsCompleted st3

/-- `handleUploadFailure(uploadType)` (lines 370-373). -/
def handleUploadFailure (st : PageState) (uploadType : String) : PageState :=
  showToast (updateUploadState st uploadType "available")
    (getUploadDisplayName uploadType ++ " upload failed. Please try again.")
    "error"

/-- JSON body of an upload endpoint response; absent fields are `none`,
`success` is the branch condition `data.success`. -/
structure UploadResponse where
  success : Bool
  message : Option String
  process_id : Option String
  deriving Repr, DecidableEq

/-- `handleRealDjangoSubmission(form, uploadType)` (lines 323-344): POST the
form, then branch on the parsed body's `success`; a rejected fetch or
rejected `json()` lands in the catch.  The fetch outcome is a parameter. -/
def handleRealDjangoSubmission (st : PageState) (secIdx : Nat)
    (uploadType : String) (outcome : Except String UploadResponse) : PageState :=
  let action := match st.sections.get? secIdx with
    | some s => s.formAction
    | none => ""
  let st1 := emit st (.fetchPost action [("formData", "multipart")])
  match outcome with
  | .ok data =>
      if data.success then handleUploadSuccess st1 uploadType
      else handleUploadFailure st1 uploadType
  | .error _ => handleUploadFailure st1 uploadType

/-- `setButtonLoadingState(button, originalText)` (lines 619-624); the
`originalText` argument is unused by the source function. -/
def setButtonLoadingState (st : PageState) (secIdx : Nat) : PageState :=
  match st.sections.get? secIdx with
  | none => st
  | some sec =>
      match sec.submitBtn with
      | none => st
      | some btn =>
          let btn2 := { btn with
            disabled := true,
            label := "⏳ Uploading...",
            classes := addClass btn.classes "loading" }
          let sec2 := { sec with submitBtn := some btn2 }
          let st1 := { st with sections := st.sections.set secIdx sec2 }
          emit (emit st1 (.btnSetDisabled sec.id true))
            (.btnSetLabel sec.id "⏳ Uploading...")

/-- `resetButtonState(button, originalText)` (lines 630-634). -/
def resetButtonState (st : PageState) (secIdx : Nat) (originalText : String) :
    PageState :=
  match st.sections.get? secIdx with
  | none => st
  | some sec =>
      match sec.submitBtn with
      | none => st
      | some btn =>
          let btn2 := { btn with
            disabled := false,
            label := originalText,
            classes := removeClass btn.classes "loading" }
          let sec2 := { sec with submitBtn := some btn2 }
          let st1 := { st with sections := st.sections.set secIdx sec2 }
          emit (emit st1 (.btnSetDisabled sec.id false))
            (.btnSetLabel sec.id originalText)

/-- `handleFormSubmission(form)` (lines 294-315): read the submit button's
`data-upload-type` (crash, modelled `none`, if the button is missing), bail
out with an error toast when it is falsy, otherwise mark the category
'processing', put the button into the loading state and run the Django
submission. -/
def handleFormSubmission (st : PageState) (secIdx : Nat)
    (outcome : Except String UploadResponse) : Option PageState :=
  match st.sections.get? secIdx with
  | none => none
  | some sec =>
      match sec.submitBtn with
      | none => none
      | some btn =>
          let badType :=
            showToast (emit st (.consoleError "Upload type not found on submit button"))
              "Error: Upload type not specified" "error"
          match btn.uploadType with
          | none => some badType
          | some ut =>
              if ut = "" then some badType
              else
                let st1 := updateUploadState st ut "processing"
                let st2 := setButtonLoadingState st1 secIdx
                some (handleRealDjangoSubmission st2 secIdx ut outcome)

/-- `resetAllUploads` (lines 487-493). -/
def resetAllUploads (st : PageState) : PageState :=
  let keys := st.uploadStatus.map Prod.fst
  let st1 := keys.foldl (fun s t => updateUploadState s t "available") st
  showToast st1 "All upload statuses have been reset." "info"

/-- `updateAllUploadStates` (lines 57-71): re-apply the stored status of
every key, then leave a completed active section.  A missing value is the
JS `undefined`, which the DOM setters coerce to the string form. -/
def updateAllUploadStates (st : PageState) : PageState :=
  let keys := st.uploadStatus.map Prod.fst
  let st1 := keys.foldl
    (fun s t => updateUploadState s t (jsUndef (objGet s.uploadStatus t))) st
  match domFind? (fun it => it.classes.contains "active") st1.items with
  | none => st1
  | some i =>
      match st1.items.get? i with
      | none => st1
      | some item =>
          if objGet st1.uploadStatus (jsUndef item.upload) == some "completed"
          then selectNextAvailableUpload st1
          else st1

/-- `loadUploadStatus` (lines 39-45): read the session entry; when truthy
parse it into `uploadStatus` and refresh every upload state.  An unparsable
entry throws out of the handler, leaving the state unchanged. -/
def loadUploadStatus (st : PageState) : PageState :=
  match objGet st.sessionStorage "uploadStatus" with
  | none => st
  | some saved =>
      if saved = "" then st
      else
        match parseFlat saved with
        | none => st
        | some m => updateAllUploadStates { st with uploadStatus := m }

/-! ## dashboard.js: the admin geospatial upload / merge / poll flow -/

/-- Body of `/geospatial/api/status/` responses.  `progress` and `message`
are `none` when absent, `completed` is the truthiness of the flag, `error`
is `some` exactly when the field is truthy, and the two object-valued fields
are recorded by their truthiness. -/
structure StatusResponse where
  progress : Option Nat
  message : Option String
  completed : Bool
  error : Option String
  file_statistics : Bool
  coordinate_info : Bool
  deriving Repr, DecidableEq

/-- State of the admin dashboard page: the two selected files, the process
id, progress panel data, the poll interval flag, the active tab, pending
timers and the event trace. -/
structure DashState where
  boundaries : Option String
  geotiff : Option String
  currentProcessId : Option String
  startTimeSet : Bool
  progressPanelShown : Bool
  coordinateInfoShown : Bool
  progressPct : Nat
  progressMsg : String
  monitoring : Bool
  activeTab : String
  timers : List (Nat × TimerTask)
  events : List Event
  deriving Repr, DecidableEq

def demit (st : DashState) (e : Event) : DashState :=
  { st with events := st.events ++ [e] }

/-- `showAlert(message, type)` (dashboard, lines 403-420): append an alert
and schedule its removal after 5 seconds. -/
def showAlert (st : DashState) (msg ty : String) : DashState :=
  { demit st (.alertShown msg ty) with
    timers := st.timers ++ [(5000, .removeAlert)] }

/-- `switchTab(tabName)`: tracked as the active tab name. -/
def switchTab (st : DashState) (tabName : String) : DashState :=
  { st with activeTab := tabName }

/-- `updateProgress(percentage, message)` (lines 269-282). -/
def updateProgress (st : DashState) (percentage : Nat) (msg : String) :
    DashState :=
  demit { st with progressPct := percentage, progressMsg := msg }
    (.progressSet percentage msg)

/-- `startProgressMonitoring` (lines 233-267): install the 2000 ms poll
interval. -/
def startProgressMonitoring (st : DashState) : DashState :=
  demit { st with monitoring := true } (.intervalStarted 2000)

/-- `startProcessing` (lines 205-231): POST the stored process id to
`/geospatial/api/start_merge/`; on truthy `success` set progress to 75 and
begin monitoring, otherwise (or on rejection) fall into the catch, which
logs and alerts with the response message or its default. -/
def startProcessing (st : DashState) (r2 : Except String UploadResponse) :
    DashState :=
  let st1 := demit st (.fetchPost "/geospatial/api/start_merge/"
    [("process_id", jsUndef st.currentProcessId)])
  match r2 with
  | .error msg =>
      showAlert (demit st1 (.consoleError ("Processing error: " ++ msg)))
        ("Processing failed: " ++ msg) "error"
  | .ok result =>
      if result.success then
        startProgressMonitoring (updateProgress st1 75 "Processing started...")
      else
        let msg := result.message.getD "Processing failed to start"
        showAlert (demit st1 (.consoleError ("Processing error: " ++ msg)))
          ("Processing failed: " ++ msg) "error"

/-- `handleFormSubmit(event)` (lines 153-203): guard on both files, switch
to the processing tab, show the panels, post the files, and branch on the
upload response; a falsy `success` throws into the catch which logs, alerts
with the message (or 'Upload failed') and resets progress to 0. -/
def handleFormSubmit (st : DashState) (r1 : Except String UploadResponse)
    (r2 : Except String UploadResponse) : DashState :=
  if st.boundaries = none ∨ st.geotiff = none then
    showAlert st "Please upload both files" "error"
  else
    let st1 := switchTab st "process"
    let st2 := { st1 with
      startTimeSet := true,
      progressPanelShown := true,
      coordinateInfoShown := true }
    let st3 := updateProgress st2 0 "Starting upload..."
    let st4 := updateProgress st3 25 "Uploading files..."
    let st5 := demit st4 (.fetchPost "/geospatial/upload_files/"
      [("geojson", jsUndef st.boundaries), ("geotiff", jsUndef st.geotiff)])
    match r1 with
    | .error msg =>
        updateProgress
          (showAlert (demit st5 (.consoleError ("Upload error: " ++ msg)))
            ("Upload failed: " ++ msg) "error") 0 "Upload failed"
    | .ok result =>
        if result.success then
          let st6 := { st5 with currentProcessId := result.process_id }
          let st7 := updateProgress st6 50 "Files uploaded successfully"
          startProcessing st7 r2
        else
          let msg := result.message.getD "Upload failed"
          updateProgress
            (showAlert (demit st5 (.consoleError ("Upload error: " ++ msg)))
              ("Upload failed: " ++ msg) "error") 0 "Upload failed"

/-- One firing of the poll interval callback (body of
`startProgressMonitoring`): fetch the status; a rejection only logs.  On a
response, update the progress bar, optionally refresh statistics and
coordinate info, and when `completed` is truthy clear the interval and only
then branch on `error`. -/
def pollTick (st : DashState) (outcome : Except String StatusResponse) :
    DashState :=
  let st1 := demit st (.fetchGet
    ("/geospatial/api/status/?process_id=" ++ jsUndef st.currentProcessId))
  match outcome with
  | .error msg => demit st1 (.consoleError ("Progress check error: " ++ msg))
  | .ok status =>
      let st2 := updateProgress st1 (status.progress.getD 0)
        (status.message.getD "Processing...")
      let st3 := if status.file_statistics then demit st2 .statsUpdated else st2
      let st4 := if status.coordinate_info then demit st3 .coordUpdated else st3
      if status.completed then
        let st5 := demit { st4 with monitoring := false } .intervalCleared
        match status.error with
        | some e => showAlert st5 ("Processing failed: " ++ e) "error"
        | none =>
            let st6 := updateProgress st5 100 "Processing completed successfully!"
            let st7 := showAlert st6 "Processing completed successfully!" "success"
            let st8 := demit st7 .finalStatsUpdated
            switchTab st8 "statistics"
      else st4

/-- The interval driver: each elapsed 2000 ms tick runs the callback while
the interval has not been cleared. -/
def runPolls (st : DashState) :
    List (Except String StatusResponse) → DashState
  | [] => st
  | o :: os => if st.monitoring then runPolls (pollTick st o) os else st

def isStatusPoll : Event → Bool
  | .fetchGet _ => true
  | _ => false

/-- Number of status polls in a trace. -/
def countStatusPolls (evs : List Event) : Nat :=
  (evs.filter isStatusPoll).length

/-- Number of responses up to and including the first completed one (all of
them when none is completed). -/
def pollsUntilCompleted : List StatusResponse → Nat
  | [] => 0
  | s :: rest => if s.completed then 1 else 1 + pollsUntilCompleted rest

/-! ## admin-upload-app.js: sidebar and submit handlers of the admin upload
page (anonymous listeners, named here after their trigger) -/

/-- The `.upload-item` click listener (lines 3-14): deactivate everything,
activate the clicked item and its `<upload>-form` section; a missing section
is a thrown `TypeError`, modelled as `none`. -/
def adminItemClick (st : PageState) (idx : Nat) : Option PageState :=
  match st.items.get? idx with
  | none => some st
  | some item =>
      let cleared := st.items.map
        (fun it => { it with classes := removeClass it.classes "active" })
      let clearedSections := st.sections.map
        (fun s => { s with classes := removeClass s.classes "active" })
      let st1 := { st with items := cleared, sections := clearedSections }
      let st2 := modifyItem st1 idx
        (fun it => { it with classes := addClass it.classes "active" })
      match findSectionIdx st2 (jsUndef item.upload ++ "-form") with
      | some j => some (modifySection st2 j
          (fun s => { s with classes := addClass s.classes "active" }))
      | none => none

/-- The `.upload-form` submit listener pair (lines 27-40 and 57-62): disable
the button, remember its label, show the uploading label, schedule the
unconditional 30-second restore, track the analytics event when `gtag`
exists, and let the native submission proceed (no `preventDefault`).  A
missing `.submit-btn` is a thrown `TypeError`, modelled as `none`. -/
def adminFormSubmit (st : PageState) (secIdx : Nat) (gtagDefined : Bool) :
    Option PageState :=
  match st.sections.get? secIdx with
  | none => some st
  | some sec =>
      match sec.submitBtn with
      | none => none
      | some btn =>
          let originalText := btn.label
          let btn2 := { btn with disabled := true, label := "⏳ Uploading..." }
          let sec2 := { sec with submitBtn := some btn2 }
          let st1 := { st with sections := st.sections.set secIdx sec2 }
          let st2 := emit st1 (.btnSetDisabled sec.id true)
          let st3 := emit st2 (.btnSetLabel sec.id "⏳ Uploading...")
          let st4 := addTimer st3 30000 (.restoreButton sec.id originalText)
          let st5 := if gtagDefined
            then emit st4 (.analyticsTracked "form_submit" sec.id) else st4
          some (emit st5 .nativeSubmit)

/-- Firing the admin 30-second restore timer: re-enable the button and put
the remembered label back. -/
def fireRestoreButton (st : PageState) (secIdx : Nat) (label : String) :
    PageState :=
  match st.sections.get? secIdx with
  | none => st
  | some sec =>
      match sec.submitBtn with
      | none => st
      | some btn =>
          let btn2 := { btn with disabled := false, label := label }
          let sec2 := { sec with submitBtn := some btn2 }
          let st1 := { st with sections := st.sections.set secIdx sec2 }
          emit (emit st1 (.btnSetDisabled sec.id false))
            (.btnSetLabel sec.id label)

/-! ## The two formatFileSize definitions

`dashboard.js` lines 422-428 and `user-upload_app.js` lines 791-799 each
define `formatFileSize(bytes)`.  The floating-point primitives the bodies
use (`Math.log`, `Math.pow`, division, `toFixed`, `parseFloat`, number
formatting, `===` against the literal 0, array subscription by a numeric
index) are abstracted into a structure of operations, so the embedded
functions are exactly as strong as the JS texts over any semantics of those
primitives. -/

structure JsNumOps where
  Num : Type
  ofLit : Nat → Num
  eqLit : Num → Nat → Bool
  logE : Num → Num
  divN : Num → Num → Num
  powN : Num → Num → Num
  floorN : Num → Num
  toFixed2 : Num → String
  parseFloatStr : String → Num
  numToString : Num → String
  subscript : List String → Num → Option String

namespace Dashboard

/-- `formatFileSize(bytes)` of dashboard.js (lines 422-428). -/
def formatFileSize (M : JsNumOps) (bytes : M.Num) : String :=
  if M.eqLit bytes 0 then "0 Bytes"
  else
    let k := M.ofLit 1024
    let sizes := ["Bytes", "KB", "MB", "GB"]
    let i := M.floorN (M.divN (M.logE bytes) (M.logE k))
    M.numToString (M.parseFloatStr (M.toFixed2 (M.divN bytes (M.powN k i))))
      ++ " " ++ jsUndef (M.subscript sizes i)

end Dashboard

namespace UserUpload

/-- `formatFileSize(bytes)` of user-upload_app.js (lines 791-799). -/
def formatFileSize (M : JsNumOps) (bytes : M.Num) : String :=
  if M.eqLit bytes 0 then "0 Bytes"
  else
    let k := M.ofLit 1024
    let sizes := ["Bytes", "KB", "MB", "GB"]
    let i := M.floorN (M.divN (M.logE bytes) (M.logE k))
    M.numToString (M.parseFloatStr (M.toFixed2 (M.divN bytes (M.powN k i))))
      ++ " " ++ jsUndef (M.subscript sizes i)

end UserUpload

/-! ## Frame lemmas for the user-page operations -/

theorem emit_uploadStatus (st : PageState) (e : Event) :
    (emit st e).uploadStatus = st.uploadStatus := rfl

theorem addTimer_uploadStatus (st : PageState) (ms : Nat) (a : TimerTask) :
    (addTimer st ms a).uploadStatus = st.uploadStatus := rfl

theorem saveUploadStatus_uploadStatus (st : PageState) :
    (saveUploadStatus st).uploadStatus = st.uploadStatus := rfl

theorem showToast_uploadStatus (st : PageState) (msg ty : String) :
    (showToast st msg ty).uploadStatus = st.uploadStatus := rfl

theorem modifyItem_uploadStatus (st : PageState) (i : Nat)
    (f : UploadItem → UploadItem) :
    (modifyItem st i f).uploadStatus = st.uploadStatus := by
  unfold modifyItem
  split <;> rfl

theorem modifySection_uploadStatus (st : PageState) (j : Nat)
    (f : UploadSection → UploadSection) :
    (modifySection st j f).uploadStatus = st.uploadStatus := by
  unfold modifySection
  split <;> rfl

theorem updateFormState_uploadStatus (st : PageState) (j : Nat) (s : String) :
    (updateFormState st j s).uploadStatus = st.uploadStatus := by
  unfold updateFormState
  split
  · rfl
  · split <;> (dsimp only; split <;> rfl)

theorem updateProgressBar_uploadStatus (st : PageState) :
    (updateProgressBar st).uploadStatus = st.uploadStatus := by
  unfold updateProgressBar
  split <;> rfl

theorem updateSessionStatus_uploadStatus (st : PageState) :
    (updateSessionStatus st).uploadStatus = st.uploadStatus := by
  unfold updateSessionStatus
  split <;> rfl

theorem updateUploadState_uploadStatus_found (st : PageState) (t s : String)
    (i j : Nat) (hi : findItemIdx st t = some i)
    (hj : findSectionIdx st (t ++ "-form") = some j) :
    (updateUploadState st t s).uploadStatus = objSet st.uploadStatus t s := by
  unfold updateUploadState
  rw [hi, hj]
  simp only [updateSessionStatus_uploadStatus, updateProgressBar_uploadStatus,
    saveUploadStatus_uploadStatus, updateFormState_uploadStatus,
    modifyItem_uploadStatus, modifySection_uploadStatus]

theorem updateUploadState_uploadStatus_cases (st : PageState) (t s : String) :
    (updateUploadState st t s).uploadStatus = objSet st.uploadStatus t s ∨
    (updateUploadState st t s).uploadStatus = st.uploadStatus := by
  cases hi : findItemIdx st t with
  | none =>
      right
      unfold updateUploadState
      rw [hi]
      rfl
  | some i =>
      cases hj : findSectionIdx st (t ++ "-form") with
      | none =>
          right
          unfold updateUploadState
          rw [hi, hj]
          rfl
      | some j =>
          left
          exact updateUploadState_uploadStatus_found st t s i j hi hj

/-! ## Theorems for the claims (with shared example states) -/

/-- A page with no sidebar items or sections at all. -/
def emptyPageState : PageState :=
  { items := [], sections := [], uploadStatus := initialUploadStatus,
    sessionStorage := [], progressBar := none, sessionIndicator := none,
    modalShown := false, timers := [], events := [] }

/-- Claim C10: when the sidebar item or the form section of `uploadType` is
missing from the DOM, `updateUploadState` only logs a console warning: the
`uploadStatus` map, the session storage entry, every DOM element and the
pending timers are left unchanged. -/
theorem claim_C10_updateUploadState_frame (st : PageState) (t s : String)
    (h : findItemIdx st t = none ∨ findSectionIdx st (t ++ "-form") = none) :
    (updateUploadState st t s).uploadStatus = st.uploadStatus ∧
    (updateUploadState st t s).sessionStorage = st.sessionStorage ∧
    (updateUploadState st t s).items = st.items ∧
    (updateUploadState st t s).sections = st.sections ∧
    (updateUploadState st t s).progressBar = st.progressBar ∧
    (updateUploadState st t s).sessionIndicator = st.sessionIndicator ∧
    (updateUploadState st t s).timers = st.timers ∧
    (updateUploadState st t s).events = st.events ++
      [Event.consoleWarn ("Could not find elements for upload type: " ++ t)] := by
  rcases h with h | h
  · unfold updateUploadState
    rw [h]
    simp [emit]
  · unfold updateUploadState
    rw [h]
    cases hfi : findItemIdx st t <;> simp [emit]

theorem claim_C10_witness :
    (updateUploadState emptyPageState "health-center" "completed").uploadStatus
        = emptyPageState.uploadStatus ∧
    (updateUploadState emptyPageState "health-center" "completed").sessionStorage
        = emptyPageState.sessionStorage ∧
    (updateUploadState emptyPageState "health-center" "completed").items
        = emptyPageState.items ∧
    (updateUploadState emptyPageState "health-center" "completed").sections
        = emptyPageState.sections ∧
    (updateUploadState emptyPageState "health-center" "completed").progressBar
        = emptyPageState.progressBar ∧
    (updateUploadState emptyPageState "health-center" "completed").sessionIndicator
        = emptyPageState.sessionIndicator ∧
    (updateUploadState emptyPageState "health-center" "completed").timers
        = emptyPageState.timers ∧
    (updateUploadState emptyPageState "health-center" "completed").events
        = emptyPageState.events ++
          [Event.consoleWarn
            ("Could not find elements for upload type: " ++ "health-center")] :=
  claim_C10_updateUploadState_frame emptyPageState "health-center" "completed"
    (Or.inl rfl)

/-- Claim C9: `checkAllUploadsCompleted` schedules the completion
celebration (toast plus modal) exactly when every value of `uploadStatus` is
'completed' or 'disabled'; when any category is 'available' or 'processing'
the whole state is untouched. -/
theorem claim_C9_checkAllUploadsCompleted (st : PageState) :
    ((checkAllUploadsCompleted st).timers
        = st.timers ++ [(2000, TimerTask.celebrate)] ↔
      ∀ p ∈ st.uploadStatus, p.2 = "completed" ∨ p.2 = "disabled") ∧
    ((∃ p ∈ st.uploadStatus, p.2 = "available" ∨ p.2 = "processing") →
      checkAllUploadsCompleted st = st) := by
  constructor
  · unfold checkAllUploadsCompleted
    dsimp only
    by_cases hall : st.uploadStatus.all
        (fun p => p.2 == "completed" || p.2 == "disabled") = true
    · rw [if_pos hall]
      unfold addTimer
      constructor
      · intro _ p hp
        have h2 := (List.all_eq_true.mp hall) p hp
        simpa using h2
      · intro _
        rfl
    · rw [if_neg hall]
      constructor
      · intro hcontr
        have hlen := congrArg List.length hcontr
        simp at hlen
      · intro hforall
        exfalso
        apply hall
        apply List.all_eq_true.mpr
        intro p hp
        have h2 := hforall p hp
        simpa using h2
  · intro hex
    obtain ⟨p, hp, hval⟩ := hex
    unfold checkAllUploadsCompleted
    dsimp only
    have hfalse : st.uploadStatus.all
        (fun p => p.2 == "completed" || p.2 == "disabled") = false := by
      apply List.all_eq_false.mpr
      refine ⟨p, hp, ?_⟩
      rcases hval with hv | hv <;> simp [hv]
    rw [hfalse]
    simp

theorem claim_C9_witness :
    checkAllUploadsCompleted emptyPageState = emptyPageState :=
  (claim_C9_checkAllUploadsCompleted emptyPageState).2
    ⟨("health-center", "available"), by decide, Or.inl rfl⟩

/-- Claim C8: the `formatFileSize` definitions of dashboard.js and
user-upload_app.js compute the same string on every byte count, whatever
the semantics of the shared numeric primitives. -/
theorem claim_C8_formatFileSize_eq (M : JsNumOps) (bytes : M.Num) :
    Dashboard.formatFileSize M bytes = UserUpload.formatFileSize M bytes := rfl

/-! ## Claim C6: session storage round trip -/

theorem handleSectionSwitch_uploadStatus (st : PageState) (i : Nat) :
    (handleSectionSwitch st i).uploadStatus = st.uploadStatus := by
  unfold handleSectionSwitch
  split
  · rfl
  · dsimp only
    split <;> simp [modifySection_uploadStatus, modifyItem_uploadStatus]

theorem selectNextAvailableUpload_uploadStatus (st : PageState) :
    (selectNextAvailableUpload st).uploadStatus = st.uploadStatus := by
  unfold selectNextAvailableUpload
  split
  · rfl
  · dsimp only
    rw [handleSectionSwitch_uploadStatus, modifyItem_uploadStatus]

theorem foldlRestore_uploadStatus (ks : List String) :
    ∀ st : PageState, (∀ t ∈ ks, t ∈ st.uploadStatus.map Prod.fst) →
      (ks.foldl
        (fun s t => updateUploadState s t (jsUndef (objGet s.uploadStatus t)))
        st).uploadStatus = st.uploadStatus := by
  induction ks with
  | nil => intro st _; rfl
  | cons t ts ih =>
      intro st hmem
      simp only [List.foldl_cons]
      have ht : t ∈ st.uploadStatus.map Prod.fst := hmem t (by simp)
      obtain ⟨v, hv⟩ := objGet_isSome_of_mem_keys _ _ ht
      have hstep : (updateUploadState st t
          (jsUndef (objGet st.uploadStatus t))).uploadStatus = st.uploadStatus := by
        rcases updateUploadState_uploadStatus_cases st t
            (jsUndef (objGet st.uploadStatus t)) with h | h
        · rw [h, hv]
          simp only [jsUndef]
          exact objSet_objGet_self _ _ _ hv
        · exact h
      have ih2 := ih (updateUploadState st t (jsUndef (objGet st.uploadStatus t)))
        (by intro u hu; rw [hstep]; exact hmem u (List.mem_cons_of_mem _ hu))
      rw [ih2, hstep]

theorem updateAllUploadStates_uploadStatus (st : PageState) :
    (updateAllUploadStates st).uploadStatus = st.uploadStatus := by
  have hfold := foldlRestore_uploadStatus (st.uploadStatus.map Prod.fst) st
    (fun t ht => ht)
  unfold updateAllUploadStates
  dsimp only
  split
  · exact hfold
  · split
    · exact hfold
    · split
      · rw [selectNextAvailableUpload_uploadStatus]
        exact hfold
      · exact hfold

/-- Claim C6: serializing `uploadStatus` with `saveUploadStatus` and reading
it back with `loadUploadStatus` (a `JSON.parse` of the `JSON.stringify`
value stored under the session key 'uploadStatus') restores the same
mapping, so the upload status survives a reload unchanged. -/
theorem claim_C6_roundtrip (st : PageState) :
    parseFlat (stringifyFlat st.uploadStatus) = some st.uploadStatus ∧
    (loadUploadStatus (saveUploadStatus st)).uploadStatus = st.uploadStatus := by
  refine ⟨parseFlat_stringifyFlat _, ?_⟩
  have hne : stringifyFlat st.uploadStatus ≠ "" := by
    intro h
    have hd := congrArg String.data h
    simp [stringifyFlat] at hd
  unfold loadUploadStatus saveUploadStatus
  dsimp only
  rw [objGet_objSet_self]
  simp [hne, parseFlat_stringifyFlat, updateAllUploadStates_uploadStatus]

/-! ## Claim C1: the dashboard progress monitor -/

theorem countStatusPolls_append (a b : List Event) :
    countStatusPolls (a ++ b) = countStatusPolls a + countStatusPolls b := by
  simp [countStatusPolls, List.filter_append]

theorem pollTick_polls (st : DashState) (o : Except String StatusResponse) :
    countStatusPolls (pollTick st o).events = countStatusPolls st.events + 1 := by
  unfold pollTick
  cases o with
  | error msg =>
      simp [demit, countStatusPolls_append, countStatusPolls, isStatusPoll]
  | ok s =>
      dsimp only
      repeat' split
      all_goals
        simp [demit, showAlert, updateProgress, switchTab,
          countStatusPolls_append, countStatusPolls, isStatusPoll]

theorem pollTick_monitoring_completed (st : DashState) (s : StatusResponse)
    (h : s.completed = true) :
    (pollTick st (Except.ok s)).monitoring = false := by
  unfold pollTick
  dsimp only
  rw [h]
  cases herr : s.error <;>
    simp [demit, showAlert, updateProgress, switchTab]

theorem pollTick_monitoring_not_completed (st : DashState) (s : StatusResponse)
    (h : s.completed = false) :
    (pollTick st (Except.ok s)).monitoring = st.monitoring := by
  unfold pollTick
  dsimp only
  rw [h]
  repeat' split
  all_goals simp_all [demit, updateProgress]

theorem runPolls_stopped (st : DashState)
    (l : List (Except String StatusResponse)) (h : st.monitoring = false) :
    runPolls st l = st := by
  cases l with
  | nil => rfl
  | cons o os =>
      unfold runPolls
      rw [h]
      simp

theorem runPolls_count (ss : List StatusResponse) :
    ∀ st : DashState, st.monitoring = true →
      countStatusPolls (runPolls st (ss.map Except.ok)).events
        = countStatusPolls st.events + pollsUntilCompleted ss := by
  induction ss with
  | nil =>
      intro st _
      simp [runPolls, pollsUntilCompleted]
  | cons s rest ih =>
      intro st hm
      simp only [List.map_cons]
      unfold runPolls
      rw [hm]
      simp only [if_true]
      by_cases hc : s.completed = true
      · have hstop := pollTick_monitoring_completed st s hc
        rw [runPolls_stopped _ _ hstop, pollTick_polls]
        simp [pollsUntilCompleted, hc]
      · have hbool : s.completed = false := by
          cases hval : s.completed
          · rfl
          · exact absurd hval hc
        have hkeep : (pollTick st (Except.ok s)).monitoring = true := by
          rw [pollTick_monitoring_not_completed st s hbool]
          exact hm
        rw [ih _ hkeep, pollTick_polls]
        simp only [pollsUntilCompleted, hbool, Bool.false_eq_true, if_false]
        omega

/-- A dashboard state mid-processing, used to instantiate the monitoring
theorems. -/
def sampleDash : DashState :=
  { boundaries := some "boundaries.zip", geotiff := some "slope.tif",
    currentProcessId := some "p-1", startTimeSet := true,
    progressPanelShown := true, coordinateInfoShown := true,
    progressPct := 75, progressMsg := "Processing started...",
    monitoring := true, activeTab := "process", timers := [], events := [] }

/-- A completed status response carrying an error message. -/
def sampleErrorStatus : StatusResponse :=
  { progress := some 80, message := some "merging", completed := true,
    error := some "boom", file_statistics := false, coordinate_info := false }

/-- Claim C1: the monitor polls on a fixed 2000 ms interval with exactly one
status fetch per tick and no retry; the first completed response clears the
interval unconditionally — before the error branch, whose alert follows the
clear — and no further polls are issued afterwards. -/
theorem claim_C1_progress_monitoring :
    (∀ st : DashState,
      (startProgressMonitoring st).events
          = st.events ++ [Event.intervalStarted 2000] ∧
      (startProgressMonitoring st).monitoring = true) ∧
    (∀ (st : DashState) (o : Except String StatusResponse),
      countStatusPolls (pollTick st o).events = countStatusPolls st.events + 1) ∧
    (∀ (st : DashState) (s : StatusResponse), s.completed = true →
      (pollTick st (Except.ok s)).monitoring = false) ∧
    (∀ (st : DashState) (s : StatusResponse) (e : String),
      s.completed = true → s.error = some e →
      ∃ mid, (pollTick st (Except.ok s)).events
        = st.events ++ mid ++ [Event.intervalCleared,
            Event.alertShown ("Processing failed: " ++ e) "error"]) ∧
    (∀ (st : DashState) (ss : List StatusResponse), st.monitoring = true →
      countStatusPolls (runPolls st (ss.map Except.ok)).events
        = countStatusPolls st.events + pollsUntilCompleted ss) := by
  refine ⟨?_, pollTick_polls, pollTick_monitoring_completed, ?_, ?_⟩
  · intro st
    exact ⟨rfl, rfl⟩
  · intro st s e hc herr
    unfold pollTick
    dsimp only
    rw [hc, herr]
    by_cases hf : s.file_statistics = true <;>
      by_cases hco : s.coordinate_info = true
    · refine ⟨[Event.fetchGet
          ("/geospatial/api/status/?process_id=" ++ jsUndef st.currentProcessId),
        Event.progressSet (s.progress.getD 0) (s.message.getD "Processing..."),
        Event.statsUpdated, Event.coordUpdated], ?_⟩
      rw [hf, hco]
      simp [demit, showAlert, updateProgress]
    · refine ⟨[Event.fetchGet
          ("/geospatial/api/status/?process_id=" ++ jsUndef st.currentProcessId),
        Event.progressSet (s.progress.getD 0) (s.message.getD "Processing..."),
        Event.statsUpdated], ?_⟩
      rw [hf]
      rw [Bool.not_eq_true] at hco
      rw [hco]
      simp [demit, showAlert, updateProgress]
    · refine ⟨[Event.fetchGet
          ("/geospatial/api/status/?process_id=" ++ jsUndef st.currentProcessId),
        Event.progressSet (s.progress.getD 0) (s.message.getD "Processing..."),
        Event.coordUpdated], ?_⟩
      rw [Bool.not_eq_true] at hf
      rw [hf, hco]
      simp [demit, showAlert, updateProgress]
    · refine ⟨[Event.fetchGet
          ("/geospatial/api/status/?process_id=" ++ jsUndef st.currentProcessId),
        Event.progressSet (s.progress.getD 0) (s.message.getD "Processing...")], ?_⟩
      rw [Bool.not_eq_true] at hf hco
      rw [hf, hco]
      simp [demit, showAlert, updateProgress]
  · intro st ss hm
    exact runPolls_count ss st hm

theorem claim_C1_witness :
    (pollTick sampleDash (Except.ok sampleErrorStatus)).monitoring = false ∧
    countStatusPolls (runPolls sampleDash
        ([sampleErrorStatus].map Except.ok)).events
      = countStatusPolls sampleDash.events
        + pollsUntilCompleted [sampleErrorStatus] ∧
    (∃ mid, (pollTick sampleDash (Except.ok sampleErrorStatus)).events
      = sampleDash.events ++ mid ++ [Event.intervalCleared,
          Event.alertShown ("Processing failed: " ++ "boom") "error"]) :=
  ⟨claim_C1_progress_monitoring.2.2.1 sampleDash sampleErrorStatus rfl,
   claim_C1_progress_monitoring.2.2.2.2 sampleDash [sampleErrorStatus] rfl,
   claim_C1_progress_monitoring.2.2.2.1 sampleDash sampleErrorStatus "boom" rfl rfl⟩

/-! ## Claim C5: the two-step upload flow of the dashboard -/

/-- Claim C5: with both files selected, a truthy `success` in the upload
response stores `process_id`, passes progress 50, and POSTs the same
process id to the merge endpoint; a truthy second `success` sets progress 75
and starts monitoring, while a falsy `success` in either step takes the
error path using the response's `message` field or its default. -/
theorem claim_C5_two_step_flow (st : DashState) (d1 : UploadResponse)
    (r2 : Except String UploadResponse)
    (hb : st.boundaries ≠ none) (hg : st.geotiff ≠ none) :
    (∀ d2 : UploadResponse, d1.success = true → r2 = Except.ok d2 →
      d2.success = true →
      (handleFormSubmit st (Except.ok d1) r2).currentProcessId = d1.process_id ∧
      (handleFormSubmit st (Except.ok d1) r2).progressPct = 75 ∧
      (handleFormSubmit st (Except.ok d1) r2).monitoring = true ∧
      (handleFormSubmit st (Except.ok d1) r2).events = st.events ++
        [Event.progressSet 0 "Starting upload...",
         Event.progressSet 25 "Uploading files...",
         Event.fetchPost "/geospatial/upload_files/"
           [("geojson", jsUndef st.boundaries), ("geotiff", jsUndef st.geotiff)],
         Event.progressSet 50 "Files uploaded successfully",
         Event.fetchPost "/geospatial/api/start_merge/"
           [("process_id", jsUndef d1.process_id)],
         Event.progressSet 75 "Processing started...",
         Event.intervalStarted 2000]) ∧
    (∀ d2 : UploadResponse, d1.success = true → r2 = Except.ok d2 →
      d2.success = false →
      (handleFormSubmit st (Except.ok d1) r2).currentProcessId = d1.process_id ∧
      (handleFormSubmit st (Except.ok d1) r2).progressPct = 50 ∧
      (handleFormSubmit st (Except.ok d1) r2).monitoring = st.monitoring ∧
      (handleFormSubmit st (Except.ok d1) r2).events = st.events ++
        [Event.progressSet 0 "Starting upload...",
         Event.progressSet 25 "Uploading files...",
         Event.fetchPost "/geospatial/upload_files/"
           [("geojson", jsUndef st.boundaries), ("geotiff", jsUndef st.geotiff)],
         Event.progressSet 50 "Files uploaded successfully",
         Event.fetchPost "/geospatial/api/start_merge/"
           [("process_id", jsUndef d1.process_id)],
         Event.consoleError
           ("Processing error: " ++ d2.message.getD "Processing failed to start"),
         Event.alertShown
           ("Processing failed: " ++ d2.message.getD "Processing failed to start")
           "error"]) ∧
    (d1.success = false →
      (handleFormSubmit st (Except.ok d1) r2).currentProcessId
          = st.currentProcessId ∧
      (handleFormSubmit st (Except.ok d1) r2).progressPct = 0 ∧
      (handleFormSubmit st (Except.ok d1) r2).progressMsg = "Upload failed" ∧
      (handleFormSubmit st (Except.ok d1) r2).events = st.events ++
        [Event.progressSet 0 "Starting upload...",
         Event.progressSet 25 "Uploading files...",
         Event.fetchPost "/geospatial/upload_files/"
           [("geojson", jsUndef st.boundaries), ("geotiff", jsUndef st.geotiff)],
         Event.consoleError ("Upload error: " ++ d1.message.getD "Upload failed"),
         Event.alertShown ("Upload failed: " ++ d1.message.getD "Upload failed")
           "error",
         Event.progressSet 0 "Upload failed"]) := by
  have hguard : ¬(st.boundaries = none ∨ st.geotiff = none) := not_or.mpr ⟨hb, hg⟩
  refine ⟨?_, ?_, ?_⟩
  · intro d2 h1 hr2 h2
    subst hr2
    unfold handleFormSubmit startProcessing
    rw [if_neg hguard]
    dsimp only
    rw [h1, h2]
    simp [demit, updateProgress, showAlert, switchTab, startProgressMonitoring]
  · intro d2 h1 hr2 h2
    subst hr2
    unfold handleFormSubmit startProcessing
    rw [if_neg hguard]
    dsimp only
    rw [h1, h2]
    simp [demit, updateProgress, showAlert, switchTab, startProgressMonitoring]
  · intro h1
    unfold handleFormSubmit
    rw [if_neg hguard]
    dsimp only
    rw [h1]
    simp [demit, updateProgress, showAlert, switchTab]

/-- Responses used to instantiate the flow theorems. -/
def sampleOkUpload : UploadResponse :=
  { success := true, message := some "ok", process_id := some "p-1" }

def sampleOkMerge : UploadResponse :=
  { success := true, message := none, process_id := none }

theorem claim_C5_witness :
    (handleFormSubmit sampleDash (Except.ok sampleOkUpload)
        (Except.ok sampleOkMerge)).currentProcessId
      = sampleOkUpload.process_id ∧
    (handleFormSubmit sampleDash (Except.ok sampleOkUpload)
        (Except.ok sampleOkMerge)).progressPct = 75 ∧
    (handleFormSubmit sampleDash (Except.ok sampleOkUpload)
        (Except.ok sampleOkMerge)).monitoring = true ∧
    (handleFormSubmit sampleDash (Except.ok sampleOkUpload)
        (Except.ok sampleOkMerge)).events = sampleDash.events ++
      [Event.progressSet 0 "Starting upload...",
       Event.progressSet 25 "Uploading files...",
       Event.fetchPost "/geospatial/upload_files/"
         [("geojson", jsUndef sampleDash.boundaries),
          ("geotiff", jsUndef sampleDash.geotiff)],
       Event.progressSet 50 "Files uploaded successfully",
       Event.fetchPost "/geospatial/api/start_merge/"
         [("process_id", jsUndef sampleOkUpload.process_id)],
       Event.progressSet 75 "Processing started...",
       Event.intervalStarted 2000] :=
  (claim_C5_two_step_flow sampleDash sampleOkUpload (Except.ok sampleOkMerge)
    (by simp [sampleDash]) (by simp [sampleDash])).1 sampleOkMerge rfl rfl rfl

/-! ## Claim C4: sidebar activation -/

theorem lt_length_of_get?_some {α : Type} (l : List α) (i : Nat) (a : α)
    (h : l.get? i = some a) : i < l.length := by
  by_contra hc
  push_neg at hc
  rw [List.get?_eq_none.mpr hc] at h
  exact Option.noConfusion h

theorem domFind?_some {α : Type} (p : α → Bool) (l : List α) (i : Nat)
    (h : domFind? p l = some i) : ∃ x, l.get? i = some x ∧ p x = true := by
  induction l generalizing i with
  | nil => simp [domFind?] at h
  | cons x xs ih =>
      by_cases hp : p x
      · simp [domFind?, hp] at h
        exact ⟨x, by simp [← h], hp⟩
      · simp [domFind?, hp] at h
        obtain ⟨n, hn, hi⟩ := h
        obtain ⟨y, hy, hpy⟩ := ih n hn
        subst hi
        exact ⟨y, by simpa using hy, hpy⟩

theorem domFind?_map {α : Type} (f : α → α) (p : α → Bool)
    (hp : ∀ x, p (f x) = p x) (l : List α) :
    domFind? p (l.map f) = domFind? p l := by
  induction l with
  | nil => rfl
  | cons x xs ih => by_cases hpx : p x <;> simp [domFind?, hp, hpx, ih]

theorem mem_addClass (cs : List String) (c : String) : c ∈ addClass cs c := by
  unfold addClass
  split
  · assumption
  · simp

theorem not_mem_removeClass (cs : List String) (c : String) :
    c ∉ removeClass cs c := by
  simp [removeClass]

theorem modifyItem_sections (st : PageState) (i : Nat)
    (f : UploadItem → UploadItem) :
    (modifyItem st i f).sections = st.sections := by
  unfold modifyItem
  split <;> rfl

theorem modifySection_items (st : PageState) (j : Nat)
    (f : UploadSection → UploadSection) :
    (modifySection st j f).items = st.items := by
  unfold modifySection
  split <;> rfl

theorem modifyItem_items_eq (st : PageState) (i : Nat)
    (f : UploadItem → UploadItem) (x : UploadItem)
    (h : st.items.get? i = some x) :
    (modifyItem st i f).items = st.items.set i (f x) := by
  unfold modifyItem
  rw [h]

theorem modifySection_sections_eq (st : PageState) (j : Nat)
    (f : UploadSection → UploadSection) (x : UploadSection)
    (h : st.sections.get? j = some x) :
    (modifySection st j f).sections = st.sections.set j (f x) := by
  unfold modifySection
  rw [h]

theorem findSectionIdx_modifyItem (st : PageState) (i : Nat)
    (f : UploadItem → UploadItem) (domId : String) :
    findSectionIdx (modifyItem st i f) domId = findSectionIdx st domId := by
  unfold modifyItem findSectionIdx
  split <;> rfl

theorem findSectionIdx_removeActive (st : PageState) (domId : String)
    (newItems : List UploadItem) :
    findSectionIdx { st with
      items := newItems,
      sections := st.sections.map
        (fun s => { s with classes := removeClass s.classes "active" }) } domId
      = findSectionIdx st domId := by
  unfold findSectionIdx
  dsimp only
  exact domFind?_map
    (fun s => { s with classes := removeClass s.classes "active" })
    (fun s => s.id == domId) (fun x => rfl) st.sections

/-- Exactness of the post-switch activation state shared by the user and
admin sidebar handlers. -/
theorem switchResult_exact (st : PageState) (idx : Nat) (item : UploadItem)
    (hidx : st.items.get? idx = some item) (j : Nat)
    (hj : findSectionIdx st (jsUndef item.upload ++ "-form") = some j)
    (stF : PageState)
    (hstF : stF = modifySection (modifyItem { st with
        items := st.items.map
          (fun it => { it with classes := removeClass it.classes "active" }),
        sections := st.sections.map
          (fun s => { s with classes := removeClass s.classes "active" }) } idx
        (fun it => { it with classes := addClass it.classes "active" })) j
        (fun s => { s with classes := addClass s.classes "active" })) :
    (∀ k it2, stF.items.get? k = some it2 → ("active" ∈ it2.classes ↔ k = idx)) ∧
    (∀ k sec2, stF.sections.get? k = some sec2 → ("active" ∈ sec2.classes ↔ k = j)) := by
  obtain ⟨sec, hsec, hpsec⟩ := domFind?_some _ _ _ hj
  have hidxlt : idx < st.items.length := lt_length_of_get?_some _ _ _ hidx
  have hjlt : j < st.sections.length := lt_length_of_get?_some _ _ _ hsec
  have hitems1 : ({ st with
      items := st.items.map
        (fun it => { it with classes := removeClass it.classes "active" }),
      sections := st.sections.map
        (fun s => { s with classes := removeClass s.classes "active" }) }
      : PageState).items.get? idx
      = some { item with classes := removeClass item.classes "active" } := by
    simp only [List.get?_map, hidx, Option.map_some']
  have hitemsF : stF.items = (st.items.map
      (fun it => { it with classes := removeClass it.classes "active" })).set idx
      { item with classes :=
          addClass (removeClass item.classes "active") "active" } := by
    rw [hstF, modifySection_items, modifyItem_items_eq _ _ _ _ hitems1]
  have hsections2 : (modifyItem { st with
      items := st.items.map
        (fun it => { it with classes := removeClass it.classes "active" }),
      sections := st.sections.map
        (fun s => { s with classes := removeClass s.classes "active" }) } idx
      (fun it => { it with classes := addClass it.classes "active" })).sections.get? j
      = some { sec with classes := removeClass sec.classes "active" } := by
    rw [modifyItem_sections]
    simp only [List.get?_map, hsec, Option.map_some']
  have hsectionsF : stF.sections = (st.sections.map
      (fun s => { s with classes := removeClass s.classes "active" })).set j
      { sec with classes :=
          addClass (removeClass sec.classes "active") "active" } := by
    rw [hstF, modifySection_sections_eq _ _ _ _ hsections2, modifyItem_sections]
  constructor
  · intro k it2 hk
    rw [hitemsF] at hk
    by_cases hkj : k = idx
    · subst hkj
      rw [List.get?_set_eq_of_lt _ (by simpa using hidxlt)] at hk
      simp only [Option.some.injEq] at hk
      subst hk
      simp [mem_addClass]
    · rw [List.get?_set_ne _ _ (Ne.symm hkj)] at hk
      rw [List.get?_map] at hk
      simp only [hkj, iff_false]
      cases hit0 : st.items.get? k with
      | none => rw [hit0] at hk; exact Option.noConfusion hk
      | some it0 =>
          rw [hit0] at hk
          simp only [Option.map_some', Option.some.injEq] at hk
          rw [← hk]
          exact not_mem_removeClass _ _
  · intro k sec2 hk
    rw [hsectionsF] at hk
    by_cases hkj : k = j
    · subst hkj
      rw [List.get?_set_eq_of_lt _ (by simpa using hjlt)] at hk
      simp only [Option.some.injEq] at hk
      subst hk
      simp [mem_addClass]
    · rw [List.get?_set_ne _ _ (Ne.symm hkj)] at hk
      rw [List.get?_map] at hk
      simp only [hkj, iff_false]
      cases hs0 : st.sections.get? k with
      | none => rw [hs0] at hk; exact Option.noConfusion hk
      | some s0 =>
          rw [hs0] at hk
          simp only [Option.map_some', Option.some.injEq] at hk
          rw [← hk]
          exact not_mem_removeClass _ _

theorem handleSectionSwitch_exact (st : PageState) (idx : Nat)
    (item : UploadItem) (hidx : st.items.get? idx = some item) (j : Nat)
    (hj : findSectionIdx st (jsUndef item.upload ++ "-form") = some j) :
    (∀ k it2, (handleSectionSwitch st idx).items.get? k = some it2 →
        ("active" ∈ it2.classes ↔ k = idx)) ∧
    (∀ k sec2, (handleSectionSwitch st idx).sections.get? k = some sec2 →
        ("active" ∈ sec2.classes ↔ k = j)) := by
  unfold handleSectionSwitch
  split
  case h_1 heq => rw [hidx] at heq; exact Option.noConfusion heq
  case h_2 item0 heq =>
      rw [hidx] at heq
      injection heq with heq
      subst heq
      dsimp only
      split
      case h_1 j' heq2 =>
          rw [findSectionIdx_modifyItem, findSectionIdx_removeActive, hj] at heq2
          injection heq2 with heq2
          subst heq2
          exact switchResult_exact st idx item hidx j hj _ rfl
      case h_2 heq2 =>
          rw [findSectionIdx_modifyItem, findSectionIdx_removeActive, hj] at heq2
          exact Option.noConfusion heq2

/-- Claim C4 (amended): clicking a sidebar item whose status is neither
'completed' nor 'disabled' activates exactly the clicked item and its
`<type>-form` section (which must exist) and deactivates all others, in both
the user handler (which guards on the status) and the admin handler (which
has no guard). -/
theorem claim_C4_amended_activation (st : PageState) (idx : Nat)
    (item : UploadItem) (hidx : st.items.get? idx = some item)
    (hnc : objGet st.uploadStatus (jsUndef item.upload) ≠ some "completed")
    (hnd : objGet st.uploadStatus (jsUndef item.upload) ≠ some "disabled")
    (j : Nat)
    (hj : findSectionIdx st (jsUndef item.upload ++ "-form") = some j) :
    ((∀ k it2, (uploadItemClick st idx).items.get? k = some it2 →
        ("active" ∈ it2.classes ↔ k = idx)) ∧
     (∀ k sec2, (uploadItemClick st idx).sections.get? k = some sec2 →
        ("active" ∈ sec2.classes ↔ k = j))) ∧
    (∀ st2, adminItemClick st idx = some st2 →
      (∀ k it2, st2.items.get? k = some it2 →
        ("active" ∈ it2.classes ↔ k = idx)) ∧
      (∀ k sec2, st2.sections.get? k = some sec2 →
        ("active" ∈ sec2.classes ↔ k = j))) := by
  constructor
  · have hred : uploadItemClick st idx = handleSectionSwitch st idx := by
      unfold uploadItemClick
      split
      case h_1 heq => rw [hidx] at heq; exact Option.noConfusion heq
      case h_2 item0 heq =>
          rw [hidx] at heq
          injection heq with heq
          subst heq
          dsimp only
          rw [if_pos ⟨hnc, hnd⟩]
    rw [hred]
    exact handleSectionSwitch_exact st idx item hidx j hj
  · intro st2 hst2
    unfold adminItemClick at hst2
    split at hst2
    case h_1 heq => rw [hidx] at heq; exact Option.noConfusion heq
    case h_2 item0 heq =>
        rw [hidx] at heq
        injection heq with heq
        subst heq
        dsimp only at hst2
        split at hst2
        case h_1 j' heq2 =>
            rw [findSectionIdx_modifyItem, findSectionIdx_removeActive, hj] at heq2
            injection heq2 with heq2
            subst heq2
            injection hst2 with hst2
            exact switchResult_exact st idx item hidx j hj st2 hst2.symm
        case h_2 heq2 => exact Option.noConfusion hst2

/-- Sidebar items as rendered on the user upload page. -/
def mkSampleItem (t : String) : UploadItem :=
  { upload := some t, classes := [], badge := none, icons := [] }

def mkSampleButton (t lbl : String) : SubmitButton :=
  { uploadType := some t, disabled := false, label := lbl, background := "",
    classes := [] }

def mkSampleSection (t lbl : String) : UploadSection :=
  { id := t ++ "-form", classes := [], inputs := [{ disabled := false }],
    submitBtn := some (mkSampleButton t lbl),
    formAction := "/upload/" ++ t ++ "/" }

/-- The user upload page with its four categories. -/
def samplePage : PageState :=
  { items := [mkSampleItem "health-center", mkSampleItem "hmis-api",
      mkSampleItem "temperature", mkSampleItem "precipitation"],
    sections := [mkSampleSection "health-center" "📤 Upload Health Records",
      mkSampleSection "hmis-api" "📤 Upload HMIS Data",
      mkSampleSection "temperature" "📤 Upload Temperature Data",
      mkSampleSection "precipitation" "📤 Upload Precipitation Data"],
    uploadStatus := initialUploadStatus, sessionStorage := [],
    progressBar := some (0, 4), sessionIndicator := some (0, 4),
    modalShown := false, timers := [], events := [] }

/-- The same page after the temperature category was disabled. -/
def disabledPage : PageState :=
  { samplePage with uploadStatus :=
      [("health-center", "available"), ("hmis-api", "available"),
       ("temperature", "disabled"), ("precipitation", "available")] }

/-- Claim C4 counterexample: the temperature item's status is 'disabled' —
hence not 'completed' — yet clicking it changes no class at all: no item and
no section becomes active, refuting the claim for items that are merely
non-completed. -/
theorem claim_C4_counterexample :
    objGet disabledPage.uploadStatus "temperature" ≠ some "completed" ∧
    (uploadItemClick disabledPage 2).items = disabledPage.items ∧
    (uploadItemClick disabledPage 2).sections = disabledPage.sections ∧
    (∀ it ∈ (uploadItemClick disabledPage 2).items, "active" ∉ it.classes) ∧
    (∀ sec ∈ (uploadItemClick disabledPage 2).sections,
      "active" ∉ sec.classes) := by
  decide

theorem claim_C4_witness :
    ((∀ k it2, (uploadItemClick samplePage 1).items.get? k = some it2 →
        ("active" ∈ it2.classes ↔ k = 1)) ∧
     (∀ k sec2, (uploadItemClick samplePage 1).sections.get? k = some sec2 →
        ("active" ∈ sec2.classes ↔ k = 1))) ∧
    (∀ st2, adminItemClick samplePage 1 = some st2 →
      (∀ k it2, st2.items.get? k = some it2 →
        ("active" ∈ it2.classes ↔ k = 1)) ∧
      (∀ k sec2, st2.sections.get? k = some sec2 →
        ("active" ∈ sec2.classes ↔ k = 1))) :=
  claim_C4_amended_activation samplePage 1 (mkSampleItem "hmis-api") rfl
    (by decide) (by decide) 1 (by decide)

/-! ## Event counting and further frame lemmas -/

def isNetworkRequest : Event → Bool
  | .fetchPost _ _ => true
  | .fetchGet _ => true
  | .nativeSubmit => true
  | _ => false

def isToastEvent : Event → Bool
  | .toastShown _ _ => true
  | _ => false

/-- Button mutations and console warnings: display-only event noise. -/
def isSilentEvent : Event → Bool
  | .btnSetDisabled _ _ => true
  | .btnSetLabel _ _ => true
  | .consoleWarn _ => true
  | _ => false

def countRequests (evs : List Event) : Nat :=
  (evs.filter isNetworkRequest).length

def countToastsAll (evs : List Event) : Nat :=
  (evs.filter isToastEvent).length

def isToastOf (kind : String) : Event → Bool
  | .toastShown _ k => k == kind
  | _ => false

def isAlertOf (kind : String) : Event → Bool
  | .alertShown _ k => k == kind
  | _ => false

def countToastsOf (kind : String) (evs : List Event) : Nat :=
  (evs.filter (isToastOf kind)).length

def countAlertsOf (kind : String) (evs : List Event) : Nat :=
  (evs.filter (isAlertOf kind)).length

theorem countRequests_append (a b : List Event) :
    countRequests (a ++ b) = countRequests a + countRequests b := by
  simp [countRequests, List.filter_append]

theorem countToastsAll_append (a b : List Event) :
    countToastsAll (a ++ b) = countToastsAll a + countToastsAll b := by
  simp [countToastsAll, List.filter_append]

theorem countToastsOf_append (kind : String) (a b : List Event) :
    countToastsOf kind (a ++ b) = countToastsOf kind a + countToastsOf kind b := by
  simp [countToastsOf, List.filter_append]

theorem silent_no_requests (evs : List Event) (h : evs.all isSilentEvent = true) :
    countRequests evs = 0 := by
  induction evs with
  | nil => rfl
  | cons e rest ih =>
      simp only [List.all_cons, Bool.and_eq_true] at h
      have he : isNetworkRequest e = false := by
        cases e <;> simp_all [isSilentEvent, isNetworkRequest]
      simp [countRequests, List.filter_cons, he]
      have := ih h.2
      simpa [countRequests] using this

theorem silent_no_toasts (evs : List Event) (h : evs.all isSilentEvent = true) :
    countToastsAll evs = 0 := by
  induction evs with
  | nil => rfl
  | cons e rest ih =>
      simp only [List.all_cons, Bool.and_eq_true] at h
      have he : isToastEvent e = false := by
        cases e <;> simp_all [isSilentEvent, isToastEvent]
      simp [countToastsAll, List.filter_cons, he]
      have := ih h.2
      simpa [countToastsAll] using this

theorem modifyItem_events (st : PageState) (i : Nat) (f : UploadItem → UploadItem) :
    (modifyItem st i f).events = st.events := by
  unfold modifyItem
  split <;> rfl

theorem modifySection_events (st : PageState) (j : Nat)
    (f : UploadSection → UploadSection) :
    (modifySection st j f).events = st.events := by
  unfold modifySection
  split <;> rfl

theorem updateProgressBar_events (st : PageState) :
    (updateProgressBar st).events = st.events := by
  unfold updateProgressBar
  split <;> rfl

theorem updateSessionStatus_events (st : PageState) :
    (updateSessionStatus st).events = st.events := by
  unfold updateSessionStatus
  split <;> rfl

theorem saveUploadStatus_events (st : PageState) :
    (saveUploadStatus st).events = st.events := rfl

theorem updateFormState_events (st : PageState) (j : Nat) (s : String) :
    ∃ evs, (updateFormState st j s).events = st.events ++ evs ∧
      evs.all isSilentEvent = true := by
  unfold updateFormState
  split
  · exact ⟨[], by simp⟩
  · next sec heq =>
      split
      · dsimp only
        split
        · exact ⟨[], by simp⟩
        · exact ⟨[Event.btnSetDisabled sec.id true,
            Event.btnSetLabel sec.id (if s = "completed"
              then "✅ Upload Completed" else "🚫 Upload Disabled")],
            by simp [emit], by simp [isSilentEvent]⟩
      · dsimp only
        split
        · exact ⟨[], by simp⟩
        · next btn heq2 =>
            exact ⟨[Event.btnSetDisabled sec.id false,
              Event.btnSetLabel sec.id (getOriginalButtonText btn.uploadType)],
              by simp [emit], by simp [isSilentEvent]⟩

theorem updateUploadState_events_silent (st : PageState) (t s : String) :
    ∃ evs, (updateUploadState st t s).events = st.events ++ evs ∧
      evs.all isSilentEvent = true := by
  cases hi : findItemIdx st t with
  | none =>
      refine ⟨[Event.consoleWarn ("Could not find elements for upload type: " ++ t)],
        ?_, by simp [isSilentEvent]⟩
      unfold updateUploadState
      rw [hi]
      rfl
  | some i =>
      cases hj : findSectionIdx st (t ++ "-form") with
      | none =>
          refine ⟨[Event.consoleWarn ("Could not find elements for upload type: " ++ t)],
            ?_, by simp [isSilentEvent]⟩
          unfold updateUploadState
          rw [hi, hj]
          rfl
      | some j =>
          unfold updateUploadState
          rw [hi, hj]
          dsimp only
          obtain ⟨evs, hevs, hall⟩ := updateFormState_events
            (modifyItem (modifyItem (modifySection (modifyItem (modifySection
              (modifyItem st i
                (fun it => { it with classes := removeStatusClasses it.classes })) j
                (fun s2 => { s2 with classes := removeStatusClasses s2.classes })) i
                (fun it => { it with classes := addClass it.classes s })) j
                (fun s2 => { s2 with classes := addClass s2.classes s })) i
                (fun it => updateStatusBadge it s)) i
                (fun it => updateStatusIcon it s)) j s
          refine ⟨evs, ?_, hall⟩
          rw [updateSessionStatus_events, updateProgressBar_events,
            saveUploadStatus_events]
          dsimp only
          rw [hevs]
          simp only [modifyItem_events, modifySection_events]

/-! ## Claim C3: uniform failure handling -/

def isFailureOutcome : Except String UploadResponse → Bool
  | .error _ => true
  | .ok d => !d.success

theorem silent_no_toastsOf (kind : String) (evs : List Event)
    (h : evs.all isSilentEvent = true) : countToastsOf kind evs = 0 := by
  induction evs with
  | nil => rfl
  | cons e rest ih =>
      simp only [List.all_cons, Bool.and_eq_true] at h
      have he : isToastOf kind e = false := by
        cases e
        case toastShown m k => exact Bool.noConfusion h.1
        all_goals rfl
      simp only [countToastsOf, List.filter_cons, he]
      simp only [Bool.false_eq_true, if_false]
      exact ih h.2

theorem modifyItem_timers (st : PageState) (i : Nat) (f : UploadItem → UploadItem) :
    (modifyItem st i f).timers = st.timers := by
  unfold modifyItem
  split <;> rfl

theorem modifySection_timers (st : PageState) (j : Nat)
    (f : UploadSection → UploadSection) :
    (modifySection st j f).timers = st.timers := by
  unfold modifySection
  split <;> rfl

theorem updateProgressBar_timers (st : PageState) :
    (updateProgressBar st).timers = st.timers := by
  unfold updateProgressBar
  split <;> rfl

theorem updateSessionStatus_timers (st : PageState) :
    (updateSessionStatus st).timers = st.timers := by
  unfold updateSessionStatus
  split <;> rfl

theorem updateFormState_timers (st : PageState) (j : Nat) (s : String) :
    (updateFormState st j s).timers = st.timers := by
  unfold updateFormState
  split
  · rfl
  · split <;> (dsimp only; split <;> rfl)

theorem updateUploadState_timers (st : PageState) (t s : String) :
    (updateUploadState st t s).timers = st.timers := by
  cases hi : findItemIdx st t with
  | none =>
      unfold updateUploadState
      rw [hi]
      rfl
  | some i =>
      cases hj : findSectionIdx st (t ++ "-form") with
      | none =>
          unfold updateUploadState
          rw [hi, hj]
          rfl
      | some j =>
          unfold updateUploadState
          rw [hi, hj]
          simp only [updateSessionStatus_timers, updateProgressBar_timers,
            updateFormState_timers, modifyItem_timers, modifySection_timers]
          rfl

theorem handleUploadFailure_events (st : PageState) (t : String) :
    ∃ evs, (handleUploadFailure st t).events = st.events ++ evs ++
        [Event.toastShown (getUploadDisplayName t ++ " upload failed. Please try again.")
          "error"] ∧
      evs.all isSilentEvent = true := by
  obtain ⟨evs, hevs, hall⟩ := updateUploadState_events_silent st t "available"
  refine ⟨evs, ?_, hall⟩
  unfold handleUploadFailure showToast addTimer emit
  dsimp only
  rw [hevs]

theorem handleUploadFailure_timers (st : PageState) (t : String) :
    (handleUploadFailure st t).timers
      = st.timers ++ [(4000, TimerTask.removeToast)] := by
  unfold handleUploadFailure showToast addTimer emit
  dsimp only
  rw [updateUploadState_timers]

theorem handleUploadFailure_uploadStatus_found (st : PageState) (t : String)
    (i j : Nat) (hi : findItemIdx st t = some i)
    (hj : findSectionIdx st (t ++ "-form") = some j) :
    objGet (handleUploadFailure st t).uploadStatus t = some "available" := by
  show objGet (updateUploadState st t "available").uploadStatus t = some "available"
  rw [updateUploadState_uploadStatus_found st t "available" i j hi hj]
  exact objGet_objSet_self _ _ _

theorem handleRealDjango_failure (st : PageState) (secIdx : Nat) (ut : String)
    (outcome : Except String UploadResponse)
    (hfail : isFailureOutcome outcome = true) :
    handleRealDjangoSubmission st secIdx ut outcome
      = handleUploadFailure (emit st (Event.fetchPost
          (match st.sections.get? secIdx with
            | some s => s.formAction
            | none => "") [("formData", "multipart")])) ut := by
  unfold handleRealDjangoSubmission
  dsimp only
  cases outcome with
  | error m => rfl
  | ok d =>
      simp only [isFailureOutcome, Bool.not_eq_true'] at hfail
      simp [hfail]

theorem countRequests_cons (e : Event) (l : List Event) :
    countRequests (e :: l)
      = (if isNetworkRequest e then 1 else 0) + countRequests l := by
  by_cases hc : isNetworkRequest e <;>
    simp [countRequests, List.filter_cons, hc, Nat.add_comm]

theorem countToastsAll_cons (e : Event) (l : List Event) :
    countToastsAll (e :: l)
      = (if isToastEvent e then 1 else 0) + countToastsAll l := by
  by_cases hc : isToastEvent e <;>
    simp [countToastsAll, List.filter_cons, hc, Nat.add_comm]

theorem countToastsOf_cons (kind : String) (e : Event) (l : List Event) :
    countToastsOf kind (e :: l)
      = (if isToastOf kind e then 1 else 0) + countToastsOf kind l := by
  by_cases hc : isToastOf kind e <;>
    simp [countToastsOf, List.filter_cons, hc, Nat.add_comm]

theorem handleRealDjango_failure_events (st : PageState) (secIdx : Nat)
    (ut : String) (outcome : Except String UploadResponse)
    (hfail : isFailureOutcome outcome = true) :
    ∃ evs, (handleRealDjangoSubmission st secIdx ut outcome).events
        = st.events ++ (Event.fetchPost
            (match st.sections.get? secIdx with
              | some s => s.formAction
              | none => "") [("formData", "multipart")]
          :: (evs ++ [Event.toastShown
              (getUploadDisplayName ut ++ " upload failed. Please try again.")
              "error"])) ∧
      evs.all isSilentEvent = true := by
  rw [handleRealDjango_failure st secIdx ut outcome hfail]
  obtain ⟨evs, hevs, hall⟩ := handleUploadFailure_events (emit st (Event.fetchPost
    (match st.sections.get? secIdx with
      | some s => s.formAction
      | none => "") [("formData", "multipart")])) ut
  refine ⟨evs, ?_, hall⟩
  rw [hevs]
  simp [emit]

/-- Claim C3: every failing fetch — a rejected request or a falsy `success`
field — is handled uniformly: exactly one network request was issued (no
retry), exactly one timed error toast (user page) or error alert (dashboard)
is shown, and the user flow's only recovery is that the category's status
goes back to 'available'. -/
theorem claim_C3_uniform_failures :
    (∀ (st : PageState) (secIdx i j : Nat) (ut : String)
        (outcome : Except String UploadResponse),
      isFailureOutcome outcome = true →
      findItemIdx st ut = some i →
      findSectionIdx st (ut ++ "-form") = some j →
      countRequests ((handleRealDjangoSubmission st secIdx ut outcome).events.drop
          st.events.length) = 1 ∧
      countToastsAll ((handleRealDjangoSubmission st secIdx ut outcome).events.drop
          st.events.length) = 1 ∧
      countToastsOf "error"
        ((handleRealDjangoSubmission st secIdx ut outcome).events.drop
          st.events.length) = 1 ∧
      objGet (handleRealDjangoSubmission st secIdx ut outcome).uploadStatus ut
          = some "available" ∧
      (4000, TimerTask.removeToast)
          ∈ (handleRealDjangoSubmission st secIdx ut outcome).timers) ∧
    (∀ (dst : DashState) (r1 r2 : Except String UploadResponse),
      dst.boundaries ≠ none → dst.geotiff ≠ none →
      isFailureOutcome r1 = true →
      countRequests ((handleFormSubmit dst r1 r2).events.drop dst.events.length)
          = 1 ∧
      countAlertsOf "error"
        ((handleFormSubmit dst r1 r2).events.drop dst.events.length) = 1) ∧
    (∀ (dst : DashState) (d1 : UploadResponse)
        (r2 : Except String UploadResponse),
      dst.boundaries ≠ none → dst.geotiff ≠ none →
      d1.success = true → isFailureOutcome r2 = true →
      countRequests ((handleFormSubmit dst (Except.ok d1) r2).events.drop
          dst.events.length) = 2 ∧
      countAlertsOf "error"
        ((handleFormSubmit dst (Except.ok d1) r2).events.drop
          dst.events.length) = 1) := by
  refine ⟨?_, ?_, ?_⟩
  · intro st secIdx i j ut outcome hfail hi hj
    obtain ⟨evs, hevs, hall⟩ :=
      handleRealDjango_failure_events st secIdx ut outcome hfail
    refine ⟨?_, ?_, ?_, ?_, ?_⟩
    · rw [hevs, List.drop_left, countRequests_cons, countRequests_append,
        silent_no_requests evs hall]
      simp [isNetworkRequest, countRequests]
    · rw [hevs, List.drop_left, countToastsAll_cons, countToastsAll_append,
        silent_no_toasts evs hall]
      simp [isToastEvent, countToastsAll]
    · rw [hevs, List.drop_left, countToastsOf_cons, countToastsOf_append,
        silent_no_toastsOf "error" evs hall]
      simp [isToastOf, countToastsOf]
    · rw [handleRealDjango_failure st secIdx ut outcome hfail]
      exact handleUploadFailure_uploadStatus_found _ ut i j hi hj
    · rw [handleRealDjango_failure st secIdx ut outcome hfail,
        handleUploadFailure_timers]
      simp [emit]
  · intro dst r1 r2 hb hg hfail
    have hguard : ¬(dst.boundaries = none ∨ dst.geotiff = none) :=
      not_or.mpr ⟨hb, hg⟩
    cases r1 with
    | error msg =>
        have hev : (handleFormSubmit dst (Except.error msg) r2).events
            = dst.events ++
              [Event.progressSet 0 "Starting upload...",
               Event.progressSet 25 "Uploading files...",
               Event.fetchPost "/geospatial/upload_files/"
                 [("geojson", jsUndef dst.boundaries),
                  ("geotiff", jsUndef dst.geotiff)],
               Event.consoleError ("Upload error: " ++ msg),
               Event.alertShown ("Upload failed: " ++ msg) "error",
               Event.progressSet 0 "Upload failed"] := by
          unfold handleFormSubmit
          rw [if_neg hguard]
          dsimp only
          simp [demit, updateProgress, showAlert, switchTab]
        rw [hev, List.drop_left]
        constructor <;>
          simp [countRequests, countAlertsOf, isNetworkRequest, isAlertOf]
    | ok d1 =>
        simp only [isFailureOutcome, Bool.not_eq_true'] at hfail
        have hev : (handleFormSubmit dst (Except.ok d1) r2).events
            = dst.events ++
              [Event.progressSet 0 "Starting upload...",
               Event.progressSet 25 "Uploading files...",
               Event.fetchPost "/geospatial/upload_files/"
                 [("geojson", jsUndef dst.boundaries),
                  ("geotiff", jsUndef dst.geotiff)],
               Event.consoleError
                 ("Upload error: " ++ d1.message.getD "Upload failed"),
               Event.alertShown
                 ("Upload failed: " ++ d1.message.getD "Upload failed") "error",
               Event.progressSet 0 "Upload failed"] := by
          unfold handleFormSubmit
          rw [if_neg hguard]
          dsimp only
          rw [hfail]
          simp [demit, updateProgress, showAlert, switchTab]
        rw [hev, List.drop_left]
        constructor <;>
          simp [countRequests, countAlertsOf, isNetworkRequest, isAlertOf]
  · intro dst d1 r2 hb hg h1 hfail
    have hguard : ¬(dst.boundaries = none ∨ dst.geotiff = none) :=
      not_or.mpr ⟨hb, hg⟩
    cases r2 with
    | error msg =>
        have hev : (handleFormSubmit dst (Except.ok d1) (Except.error msg)).events
            = dst.events ++
              [Event.progressSet 0 "Starting upload...",
               Event.progressSet 25 "Uploading files...",
               Event.fetchPost "/geospatial/upload_files/"
                 [("geojson", jsUndef dst.boundaries),
                  ("geotiff", jsUndef dst.geotiff)],
               Event.progressSet 50 "Files uploaded successfully",
               Event.fetchPost "/geospatial/api/start_merge/"
                 [("process_id", jsUndef d1.process_id)],
               Event.consoleError ("Processing error: " ++ msg),
               Event.alertShown ("Processing failed: " ++ msg) "error"] := by
          unfold handleFormSubmit startProcessing
          rw [if_neg hguard]
          dsimp only
          rw [h1]
          simp [demit, updateProgress, showAlert, switchTab]
        rw [hev, List.drop_left]
        constructor <;>
          simp [countRequests, countAlertsOf, isNetworkRequest, isAlertOf]
    | ok d2 =>
        simp only [isFailureOutcome, Bool.not_eq_true'] at hfail
        have hev : (handleFormSubmit dst (Except.ok d1) (Except.ok d2)).events
            = dst.events ++
              [Event.progressSet 0 "Starting upload...",
               Event.progressSet 25 "Uploading files...",
               Event.fetchPost "/geospatial/upload_files/"
                 [("geojson", jsUndef dst.boundaries),
                  ("geotiff", jsUndef dst.geotiff)],
               Event.progressSet 50 "Files uploaded successfully",
               Event.fetchPost "/geospatial/api/start_merge/"
                 [("process_id", jsUndef d1.process_id)],
               Event.consoleError ("Processing error: "
                 ++ d2.message.getD "Processing failed to start"),
               Event.alertShown ("Processing failed: "
                 ++ d2.message.getD "Processing failed to start") "error"] := by
          unfold handleFormSubmit startProcessing
          rw [if_neg hguard]
          dsimp only
          rw [h1, hfail]
          simp [demit, updateProgress, showAlert, switchTab]
        rw [hev, List.drop_left]
        constructor <;>
          simp [countRequests, countAlertsOf, isNetworkRequest, isAlertOf]

theorem claim_C3_witness :
    countRequests ((handleRealDjangoSubmission samplePage 2 "temperature"
        (Except.error "network down")).events.drop samplePage.events.length) = 1 ∧
    countToastsAll ((handleRealDjangoSubmission samplePage 2 "temperature"
        (Except.error "network down")).events.drop samplePage.events.length) = 1 ∧
    countToastsOf "error" ((handleRealDjangoSubmission samplePage 2 "temperature"
        (Except.error "network down")).events.drop samplePage.events.length) = 1 ∧
    objGet (handleRealDjangoSubmission samplePage 2 "temperature"
        (Except.error "network down")).uploadStatus "temperature"
        = some "available" ∧
    (4000, TimerTask.removeToast) ∈ (handleRealDjangoSubmission samplePage 2
        "temperature" (Except.error "network down")).timers :=
  claim_C3_uniform_failures.1 samplePage 2 2 2 "temperature"
    (Except.error "network down") rfl (by decide) (by decide)

/-! ## Claim C7: loading state precedes the network request -/

/-- Walk an event trace up to the first network request, tracking the last
disabled flag and label written to the button of section `sid`; returns the
tracked pair at the moment the request is issued (`none` when no request
occurs). -/
def btnStateBeforeFetch (sid : String) :
    List Event → Option Bool → Option String →
      Option (Option Bool × Option String)
  | [], _, _ => none
  | e :: rest, curDis, curLab =>
      match e with
      | .fetchPost _ _ => some (curDis, curLab)
      | .fetchGet _ => some (curDis, curLab)
      | .nativeSubmit => some (curDis, curLab)
      | .btnSetDisabled s b =>
          btnStateBeforeFetch sid rest (if s == sid then some b else curDis) curLab
      | .btnSetLabel s l =>
          btnStateBeforeFetch sid rest curDis (if s == sid then some l else curLab)
      | _ => btnStateBeforeFetch sid rest curDis curLab

theorem btnScan_silent_prefix (sid : String) (evs : List Event)
    (h : evs.all isSilentEvent = true) :
    ∀ (rest : List Event) (curDis : Option Bool) (curLab : Option String),
      ∃ d2 l2, btnStateBeforeFetch sid (evs ++ rest) curDis curLab
        = btnStateBeforeFetch sid rest d2 l2 := by
  induction evs with
  | nil => intro rest d l; exact ⟨d, l, rfl⟩
  | cons e es ih =>
      intro rest d l
      simp only [List.all_cons, Bool.and_eq_true] at h
      cases e
      case btnSetDisabled s b =>
          exact ih h.2 rest (if s == sid then some b else d) l
      case btnSetLabel s lb =>
          exact ih h.2 rest d (if s == sid then some lb else l)
      case consoleWarn m => exact ih h.2 rest d l
      all_goals exact Bool.noConfusion h.1

theorem btnScan_loading_tail (sid lbl : String) (d : Option Bool)
    (l : Option String) (e : Event) (he : isNetworkRequest e = true)
    (tail : List Event) :
    btnStateBeforeFetch sid
        ([Event.btnSetDisabled sid true, Event.btnSetLabel sid lbl]
          ++ e :: tail) d l
      = some (some true, some lbl) := by
  cases e <;> simp_all [btnStateBeforeFetch, isNetworkRequest]

/-- The id and button-presence of every section, as read by the submit
handlers. -/
def sectionShapeAt (st : PageState) (k : Nat) : Option (String × Bool) :=
  (st.sections.get? k).map (fun sec => (sec.id, sec.submitBtn.isSome))

theorem set_sectionShape_eq (st : PageState) (j k : Nat)
    (sec secX : UploadSection) (heq : st.sections.get? j = some sec)
    (hid : secX.id = sec.id)
    (hbtn : secX.submitBtn.isSome = sec.submitBtn.isSome) :
    ((st.sections.set j secX).get? k).map
        (fun s2 => (s2.id, s2.submitBtn.isSome)) = sectionShapeAt st k := by
  unfold sectionShapeAt
  by_cases hk : k = j
  · subst hk
    rw [List.get?_set_eq_of_lt _ (lt_length_of_get?_some _ _ _ heq), heq]
    simp [hid, hbtn]
  · rw [List.get?_set_ne _ _ (Ne.symm hk)]

theorem modifyItem_sectionShape (st : PageState) (i : Nat)
    (f : UploadItem → UploadItem) (k : Nat) :
    sectionShapeAt (modifyItem st i f) k = sectionShapeAt st k := by
  unfold sectionShapeAt
  rw [modifyItem_sections]

theorem modifySection_sectionShape (st : PageState) (j : Nat)
    (f : UploadSection → UploadSection) (hid : ∀ s2, (f s2).id = s2.id)
    (hbtn : ∀ s2, (f s2).submitBtn.isSome = s2.submitBtn.isSome) (k : Nat) :
    sectionShapeAt (modifySection st j f) k = sectionShapeAt st k := by
  unfold modifySection
  split
  · next sec heq => exact set_sectionShape_eq st j k sec _ heq (hid sec) (hbtn sec)
  · rfl

theorem updateFormState_sectionShape (st : PageState) (j : Nat) (s : String)
    (k : Nat) : sectionShapeAt (updateFormState st j s) k = sectionShapeAt st k := by
  unfold updateFormState
  split
  · rfl
  · next sec heq =>
      split
      · dsimp only
        split
        · next hb =>
            exact set_sectionShape_eq st j k sec _ heq rfl (by rw [hb])
        · next btn hb =>
            refine set_sectionShape_eq st j k sec _ heq rfl ?_
            rw [hb]
            rfl
      · dsimp only
        split
        · next hb =>
            exact set_sectionShape_eq st j k sec _ heq rfl (by rw [hb])
        · next btn hb =>
            refine set_sectionShape_eq st j k sec _ heq rfl ?_
            rw [hb]
            rfl

theorem updateUploadState_sectionShape (st : PageState) (t s : String)
    (k : Nat) :
    sectionShapeAt (updateUploadState st t s) k = sectionShapeAt st k := by
  cases hi : findItemIdx st t with
  | none =>
      unfold updateUploadState
      rw [hi]
      rfl
  | some i =>
      cases hj : findSectionIdx st (t ++ "-form") with
      | none =>
          unfold updateUploadState
          rw [hi, hj]
          rfl
      | some j =>
          unfold updateUploadState
          rw [hi, hj]
          dsimp only
          show sectionShapeAt (updateSessionStatus (updateProgressBar
            (saveUploadStatus _))) k = sectionShapeAt st k
          have h1 : ∀ st2 : PageState,
              sectionShapeAt (updateSessionStatus st2) k = sectionShapeAt st2 k := by
            intro st2
            unfold updateSessionStatus sectionShapeAt
            split <;> rfl
          have h2 : ∀ st2 : PageState,
              sectionShapeAt (updateProgressBar st2) k = sectionShapeAt st2 k := by
            intro st2
            unfold updateProgressBar sectionShapeAt
            split <;> rfl
          have h3 : ∀ st2 : PageState,
              sectionShapeAt (saveUploadStatus st2) k = sectionShapeAt st2 k := by
            intro st2
            rfl
          rw [h1, h2, h3]
          show sectionShapeAt (updateFormState _ j s) k = sectionShapeAt st k
          rw [updateFormState_sectionShape]
          rw [modifyItem_sectionShape, modifyItem_sectionShape,
            modifySection_sectionShape _ j
              (fun s2 => { s2 with classes := addClass s2.classes s })
              (fun s2 => rfl) (fun s2 => rfl),
            modifyItem_sectionShape,
            modifySection_sectionShape _ j
              (fun s2 => { s2 with classes := removeStatusClasses s2.classes })
              (fun s2 => rfl) (fun s2 => rfl),
            modifyItem_sectionShape]

theorem updateUploadState_section_keeps (st : PageState) (t s : String)
    (secIdx : Nat) (sec : UploadSection) (btn : SubmitButton)
    (hsec : st.sections.get? secIdx = some sec)
    (hbtn : sec.submitBtn = some btn) :
    ∃ sec2 btn2, (updateUploadState st t s).sections.get? secIdx = some sec2 ∧
      sec2.id = sec.id ∧ sec2.submitBtn = some btn2 := by
  have h := updateUploadState_sectionShape st t s secIdx
  unfold sectionShapeAt at h
  rw [hsec] at h
  cases hopt : (updateUploadState st t s).sections.get? secIdx with
  | none => rw [hopt] at h; simp at h
  | some sec2 =>
      rw [hopt] at h
      simp only [Option.map_some', Option.some.injEq, Prod.mk.injEq] at h
      have hiss : sec2.submitBtn.isSome = true := by rw [h.2, hbtn]; rfl
      obtain ⟨btn2, hb2⟩ := Option.isSome_iff_exists.mp hiss
      exact ⟨sec2, btn2, rfl, h.1, hb2⟩

theorem setButtonLoadingState_events_found (st : PageState) (secIdx : Nat)
    (sec : UploadSection) (btn : SubmitButton)
    (hsec : st.sections.get? secIdx = some sec)
    (hbtn : sec.submitBtn = some btn) :
    (setButtonLoadingState st secIdx).events = st.events ++
      [Event.btnSetDisabled sec.id true,
       Event.btnSetLabel sec.id "⏳ Uploading..."] := by
  unfold setButtonLoadingState
  rw [hsec]
  simp [hbtn, emit]

theorem checkAllUploadsCompleted_events (st : PageState) :
    (checkAllUploadsCompleted st).events = st.events := by
  unfold checkAllUploadsCompleted
  dsimp only
  split <;> rfl

theorem handleUploadSuccess_events_suffix (st : PageState) (t : String) :
    ∃ evs, (handleUploadSuccess st t).events = st.events ++ evs := by
  obtain ⟨evs, hevs, _⟩ := updateUploadState_events_silent st t "completed"
  refine ⟨evs ++ [Event.toastShown (getUploadDisplayName t
    ++ " uploaded successfully! ✅") "success"], ?_⟩
  unfold handleUploadSuccess
  rw [checkAllUploadsCompleted_events]
  show (updateUploadState st t "completed").events ++ _ = _
  rw [hevs]
  simp

theorem handleRealDjango_success (st : PageState) (secIdx : Nat)
    (ut : String) (d : UploadResponse) (hd : d.success = true) :
    handleRealDjangoSubmission st secIdx ut (Except.ok d)
      = handleUploadSuccess (emit st (Event.fetchPost
          (match st.sections.get? secIdx with
            | some s => s.formAction
            | none => "") [("formData", "multipart")])) ut := by
  unfold handleRealDjangoSubmission
  simp [hd]

theorem handleRealDjango_events_head (st : PageState) (secIdx : Nat)
    (ut : String) (outcome : Except String UploadResponse) :
    ∃ tail, (handleRealDjangoSubmission st secIdx ut outcome).events
      = st.events ++ Event.fetchPost
          (match st.sections.get? secIdx with
            | some s => s.formAction
            | none => "") [("formData", "multipart")] :: tail := by
  cases outcome with
  | error m =>
      rw [handleRealDjango_failure st secIdx ut (Except.error m) rfl]
      obtain ⟨evs, hevs, _⟩ := handleUploadFailure_events
        (emit st (Event.fetchPost
          (match st.sections.get? secIdx with
            | some s => s.formAction
            | none => "") [("formData", "multipart")])) ut
      refine ⟨evs ++ [Event.toastShown (getUploadDisplayName ut
        ++ " upload failed. Please try again.") "error"], ?_⟩
      rw [hevs]
      simp [emit]
  | ok d =>
      cases hd : d.success with
      | true =>
          rw [handleRealDjango_success st secIdx ut d hd]
          obtain ⟨evs, hevs⟩ := handleUploadSuccess_events_suffix
            (emit st (Event.fetchPost
              (match st.sections.get? secIdx with
                | some s => s.formAction
                | none => "") [("formData", "multipart")])) ut
          refine ⟨evs, ?_⟩
          rw [hevs]
          simp [emit]
      | false =>
          rw [handleRealDjango_failure st secIdx ut (Except.ok d)
            (by simp [isFailureOutcome, hd])]
          obtain ⟨evs, hevs, _⟩ := handleUploadFailure_events
            (emit st (Event.fetchPost
              (match st.sections.get? secIdx with
                | some s => s.formAction
                | none => "") [("formData", "multipart")])) ut
          refine ⟨evs ++ [Event.toastShown (getUploadDisplayName ut
            ++ " upload failed. Please try again.") "error"], ?_⟩
          rw [hevs]
          simp [emit]

/-- The admin submit handler's state right after scheduling the restore
timer (intermediate state of the listener pair). -/
def adminLoadingButton (btn : SubmitButton) : SubmitButton :=
  { btn with disabled := true, label := "⏳ Uploading..." }

def adminLoadingSection (sec : UploadSection) (btn : SubmitButton) : UploadSection :=
  { sec with submitBtn := some (adminLoadingButton btn) }

def adminLoadingState (st : PageState) (secIdx : Nat) (sec : UploadSection)
    (btn : SubmitButton) : PageState :=
  addTimer (emit (emit { st with
      sections := st.sections.set secIdx (adminLoadingSection sec btn) }
    (Event.btnSetDisabled sec.id true))
    (Event.btnSetLabel sec.id "⏳ Uploading..."))
    30000 (TimerTask.restoreButton sec.id btn.label)

def adminRestoredButton (btn : SubmitButton) : SubmitButton :=
  { btn with disabled := false, label := btn.label }

def adminRestoredSection (sec : UploadSection) (btn : SubmitButton) : UploadSection :=
  { sec with submitBtn := some (adminRestoredButton btn) }

theorem adminFormSubmit_spec (st : PageState) (secIdx : Nat) (g : Bool)
    (sec : UploadSection) (btn : SubmitButton)
    (hsec : st.sections.get? secIdx = some sec)
    (hbtn : sec.submitBtn = some btn) :
    adminFormSubmit st secIdx g = some (emit
      (if g then emit (adminLoadingState st secIdx sec btn)
          (Event.analyticsTracked "form_submit" sec.id)
        else adminLoadingState st secIdx sec btn)
      Event.nativeSubmit) := by
  unfold adminFormSubmit
  rw [hsec]
  simp [hbtn, adminLoadingState, adminLoadingSection, adminLoadingButton,
    emit, addTimer]

/-- Claim C7: on a validated submission the submit button is disabled and
its label replaced by the uploading indicator before the network request is
issued (the user page's Django submission, and the admin page's native
submission), and the admin handler additionally schedules an unconditional
30-second timer whose firing re-enables the button with its original
label. -/
theorem claim_C7_loading_state :
    (∀ (st : PageState) (secIdx : Nat) (outcome : Except String UploadResponse)
        (sec : UploadSection) (btn : SubmitButton) (ut : String),
      st.sections.get? secIdx = some sec → sec.submitBtn = some btn →
      btn.uploadType = some ut → ut ≠ "" →
      ∃ st2, handleFormSubmission st secIdx outcome = some st2 ∧
        btnStateBeforeFetch sec.id (st2.events.drop st.events.length) none none
          = some (some true, some "⏳ Uploading...")) ∧
    (∀ (st : PageState) (secIdx : Nat) (g : Bool) (sec : UploadSection)
        (btn : SubmitButton),
      st.sections.get? secIdx = some sec → sec.submitBtn = some btn →
      ∃ st2, adminFormSubmit st secIdx g = some st2 ∧
        btnStateBeforeFetch sec.id (st2.events.drop st.events.length) none none
          = some (some true, some "⏳ Uploading...") ∧
        (30000, TimerTask.restoreButton sec.id btn.label) ∈ st2.timers ∧
        ∃ sec3 btn3,
          (fireRestoreButton st2 secIdx btn.label).sections.get? secIdx
              = some sec3 ∧
          sec3.submitBtn = some btn3 ∧ btn3.disabled = false ∧
          btn3.label = btn.label) := by
  constructor
  · intro st secIdx outcome sec btn ut hsec hbtn hut hne
    have hred : handleFormSubmission st secIdx outcome
        = some (handleRealDjangoSubmission
            (setButtonLoadingState (updateUploadState st ut "processing") secIdx)
            secIdx ut outcome) := by
      unfold handleFormSubmission
      rw [hsec]
      simp [hbtn, hut, hne]
    obtain ⟨evs1, hevs1, hall1⟩ := updateUploadState_events_silent st ut "processing"
    obtain ⟨sec2, btn2, hsec2, hid2, hbtn2⟩ :=
      updateUploadState_section_keeps st ut "processing" secIdx sec btn hsec hbtn
    have hev2 := setButtonLoadingState_events_found
      (updateUploadState st ut "processing") secIdx sec2 btn2 hsec2 hbtn2
    rw [hid2] at hev2
    obtain ⟨tail, htail⟩ := handleRealDjango_events_head
      (setButtonLoadingState (updateUploadState st ut "processing") secIdx)
      secIdx ut outcome
    refine ⟨_, hred, ?_⟩
    rw [htail, hev2, hevs1]
    simp only [List.append_assoc, List.cons_append, List.nil_append]
    rw [List.drop_left]
    obtain ⟨d2, l2, habs⟩ := btnScan_silent_prefix sec.id evs1 hall1
      (Event.btnSetDisabled sec.id true :: Event.btnSetLabel sec.id "⏳ Uploading..."
        :: Event.fetchPost
          (match (setButtonLoadingState (updateUploadState st ut "processing")
            secIdx).sections.get? secIdx with
            | some s => s.formAction
            | none => "") [("formData", "multipart")] :: tail) none none
    rw [habs]
    exact btnScan_loading_tail sec.id "⏳ Uploading..." d2 l2
      (Event.fetchPost
        (match (setButtonLoadingState (updateUploadState st ut "processing")
          secIdx).sections.get? secIdx with
          | some s => s.formAction
          | none => "") [("formData", "multipart")]) rfl tail
  · intro st secIdx g sec btn hsec hbtn
    have hlt := lt_length_of_get?_some _ _ _ hsec
    rw [adminFormSubmit_spec st secIdx g sec btn hsec hbtn]
    refine ⟨_, rfl, ?_, ?_, ?_⟩
    · have hev : (emit (if g then emit (adminLoadingState st secIdx sec btn)
            (Event.analyticsTracked "form_submit" sec.id)
          else adminLoadingState st secIdx sec btn) Event.nativeSubmit).events
          = st.events ++ (if g then
              [Event.btnSetDisabled sec.id true,
               Event.btnSetLabel sec.id "⏳ Uploading...",
               Event.analyticsTracked "form_submit" sec.id, Event.nativeSubmit]
            else
              [Event.btnSetDisabled sec.id true,
               Event.btnSetLabel sec.id "⏳ Uploading...",
               Event.nativeSubmit]) := by
        by_cases hg : g = true <;>
          simp [hg, emit, addTimer, adminLoadingState]
      rw [hev, List.drop_left]
      by_cases hg : g = true
      · simp [hg, btnStateBeforeFetch]
      · simp [hg, btnStateBeforeFetch]
    · by_cases hg : g = true <;>
        simp [hg, emit, addTimer, adminLoadingState]
    · refine ⟨adminRestoredSection sec btn, adminRestoredButton btn, ?_, rfl,
        rfl, rfl⟩
      have hsecs : (emit (if g then emit (adminLoadingState st secIdx sec btn)
            (Event.analyticsTracked "form_submit" sec.id)
          else adminLoadingState st secIdx sec btn) Event.nativeSubmit).sections
          = st.sections.set secIdx (adminLoadingSection sec btn) := by
        by_cases hg : g = true <;>
          simp [hg, emit, addTimer, adminLoadingState]
      unfold fireRestoreButton
      rw [hsecs]
      rw [List.get?_set_eq_of_lt _ (by simpa using hlt)]
      simp [adminLoadingSection, adminLoadingButton, adminRestoredSection,
        adminRestoredButton, emit, hsecs, List.get?_set_eq_of_lt, hlt,
        List.length_set]

theorem claim_C7_witness :
    (∃ st2, handleFormSubmission samplePage 0
        (Except.ok { success := true, message := none, process_id := none })
        = some st2 ∧
      btnStateBeforeFetch (mkSampleSection "health-center"
          "📤 Upload Health Records").id
        (st2.events.drop samplePage.events.length) none none
        = some (some true, some "⏳ Uploading...")) ∧
    (∃ st2, adminFormSubmit samplePage 0 false = some st2 ∧
      btnStateBeforeFetch (mkSampleSection "health-center"
          "📤 Upload Health Records").id
        (st2.events.drop samplePage.events.length) none none
        = some (some true, some "⏳ Uploading...") ∧
      (30000, TimerTask.restoreButton (mkSampleSection "health-center"
          "📤 Upload Health Records").id
        (mkSampleButton "health-center" "📤 Upload Health Records").label)
          ∈ st2.timers ∧
      ∃ sec3 btn3,
        (fireRestoreButton st2 0 (mkSampleButton "health-center"
            "📤 Upload Health Records").label).sections.get? 0 = some sec3 ∧
        sec3.submitBtn = some btn3 ∧ btn3.disabled = false ∧
        btn3.label = (mkSampleButton "health-center"
          "📤 Upload Health Records").label) :=
  ⟨claim_C7_loading_state.1 samplePage 0
      (Except.ok { success := true, message := none, process_id := none })
      (mkSampleSection "health-center" "📤 Upload Health Records")
      (mkSampleButton "health-center" "📤 Upload Health Records")
      "health-center" rfl rfl rfl (by decide),
   claim_C7_loading_state.2 samplePage 0 false
      (mkSampleSection "health-center" "📤 Upload Health Records")
      (mkSampleButton "health-center" "📤 Upload Health Records") rfl rfl⟩

/-! ## Claim C2: the uploadStatus invariant -/

/-- The `uploadStatus` object maps exactly the four categories, in order, to
one of the four status labels. -/
def statusMapWellFormed (m : List (String × String)) : Prop :=
  m.map Prod.fst = uploadCategories ∧ ∀ p ∈ m, p.2 ∈ validStatusLabels

/-- The `data-upload` attribute of a sidebar item, when present, names one
of the four categories. -/
def uploadAttrOk (o : Option String) : Bool :=
  match o with
  | none => true
  | some t => uploadCategories.contains t

/-- The rendered sidebar only carries the four upload categories. -/
def domCategoriesOnly (st : PageState) : Prop :=
  st.items.all (fun it => uploadAttrOk it.upload) = true

theorem domOnly_mem (st : PageState) (hdom : domCategoriesOnly st)
    (it : UploadItem) (hit : it ∈ st.items) (t : String)
    (ht : it.upload = some t) : t ∈ uploadCategories := by
  have h := List.all_eq_true.mp hdom it hit
  rw [ht] at h
  simpa [uploadAttrOk] using h

/-- Upload attributes of one item list refine those of another. -/
def itemsUploadSub (l2 l1 : List UploadItem) : Prop :=
  ∀ it2 ∈ l2, ∃ it ∈ l1, it2.upload = it.upload

theorem itemsUploadSub_refl (l : List UploadItem) : itemsUploadSub l l :=
  fun it h => ⟨it, h, rfl⟩

theorem itemsUploadSub_trans {a b c : List UploadItem}
    (h1 : itemsUploadSub a b) (h2 : itemsUploadSub b c) : itemsUploadSub a c :=
  fun it2 h => by
    obtain ⟨x, hx, he⟩ := h1 it2 h
    obtain ⟨y, hy, he2⟩ := h2 x hx
    exact ⟨y, hy, he.trans he2⟩

theorem domOnly_of_sub (st2 st : PageState)
    (hsub : itemsUploadSub st2.items st.items) (hdom : domCategoriesOnly st) :
    domCategoriesOnly st2 := by
  apply List.all_eq_true.mpr
  intro it2 h2
  obtain ⟨it, hit, he⟩ := hsub it2 h2
  have h := List.all_eq_true.mp hdom it hit
  rw [he]
  exact h

/-- The items-level effect of `modifyItem`. -/
def modifyItemsList (l : List UploadItem) (i : Nat) (f : UploadItem → UploadItem) :
    List UploadItem :=
  match l.get? i with
  | some x => l.set i (f x)
  | none => l

theorem modifyItem_items' (st : PageState) (i : Nat)
    (f : UploadItem → UploadItem) :
    (modifyItem st i f).items = modifyItemsList st.items i f := by
  unfold modifyItem modifyItemsList
  split <;> rfl

theorem modifyItemsList_sub (l : List UploadItem) (i : Nat)
    (f : UploadItem → UploadItem) (hf : ∀ x, (f x).upload = x.upload) :
    itemsUploadSub (modifyItemsList l i f) l := by
  unfold modifyItemsList
  split
  · next x heq =>
      intro it2 h2
      rcases List.mem_or_eq_of_mem_set h2 with h | h
      · exact ⟨it2, h, rfl⟩
      · subst h
        exact ⟨x, List.get?_mem heq, hf x⟩
  · exact itemsUploadSub_refl _

theorem updateStatusBadge_upload (it : UploadItem) (s : String) :
    (updateStatusBadge it s).upload = it.upload := by
  unfold updateStatusBadge
  split <;> rfl

theorem updateStatusIcon_upload (it : UploadItem) (s : String) :
    (updateStatusIcon it s).upload = it.upload := rfl

theorem updateFormState_items (st : PageState) (j : Nat) (s : String) :
    (updateFormState st j s).items = st.items := by
  unfold updateFormState
  split
  · rfl
  · split <;> (dsimp only; split <;> rfl)

theorem updateProgressBar_items (st : PageState) :
    (updateProgressBar st).items = st.items := by
  unfold updateProgressBar
  split <;> rfl

theorem updateSessionStatus_items (st : PageState) :
    (updateSessionStatus st).items = st.items := by
  unfold updateSessionStatus
  split <;> rfl

theorem saveUploadStatus_items (st : PageState) :
    (saveUploadStatus st).items = st.items := rfl

theorem setButtonLoadingState_items (st : PageState) (k : Nat) :
    (setButtonLoadingState st k).items = st.items := by
  unfold setButtonLoadingState
  split
  · rfl
  · split <;> rfl

theorem setButtonLoadingState_uploadStatus (st : PageState) (k : Nat) :
    (setButtonLoadingState st k).uploadStatus = st.uploadStatus := by
  unfold setButtonLoadingState
  split
  · rfl
  · split <;> rfl

theorem updateUploadState_items_sub (st : PageState) (t s : String) :
    itemsUploadSub (updateUploadState st t s).items st.items := by
  cases hi : findItemIdx st t with
  | none =>
      unfold updateUploadState
      rw [hi]
      exact itemsUploadSub_refl st.items
  | some i =>
      cases hj : findSectionIdx st (t ++ "-form") with
      | none =>
          unfold updateUploadState
          rw [hi, hj]
          exact itemsUploadSub_refl st.items
      | some j =>
          unfold updateUploadState
          rw [hi, hj]
          dsimp only
          simp only [updateSessionStatus_items, updateProgressBar_items,
            saveUploadStatus_items, updateFormState_items, modifyItem_items',
            modifySection_items]
          exact itemsUploadSub_trans
            (modifyItemsList_sub _ _ _ (fun x => updateStatusIcon_upload x s))
            (itemsUploadSub_trans
              (modifyItemsList_sub _ _ _ (fun x => updateStatusBadge_upload x s))
              (itemsUploadSub_trans
                (modifyItemsList_sub _ _ _ (fun x => rfl))
                (modifyItemsList_sub _ _ _ (fun x => rfl))))

theorem findItemIdx_mem_categories (st : PageState) (t : String) (i : Nat)
    (hdom : domCategoriesOnly st) (hi : findItemIdx st t = some i) :
    t ∈ uploadCategories := by
  obtain ⟨it, hget, hp⟩ := domFind?_some _ _ _ hi
  have hup : it.upload = some t := by simpa using hp
  exact domOnly_mem st hdom it (List.get?_mem hget) t hup

theorem updateUploadState_uploadStatus_notfound (st : PageState) (t s : String)
    (h : findItemIdx st t = none ∨ findSectionIdx st (t ++ "-form") = none) :
    (updateUploadState st t s).uploadStatus = st.uploadStatus := by
  rcases h with h | h
  · unfold updateUploadState
    rw [h]
    rfl
  · unfold updateUploadState
    rw [h]
    cases hfi : findItemIdx st t <;> rfl

theorem updateUploadState_wf (st : PageState) (t s : String)
    (hdom : domCategoriesOnly st) (hm : statusMapWellFormed st.uploadStatus)
    (hs : s ∈ validStatusLabels) :
    statusMapWellFormed (updateUploadState st t s).uploadStatus := by
  cases hi : findItemIdx st t with
  | none =>
      rw [updateUploadState_uploadStatus_notfound st t s (Or.inl hi)]
      exact hm
  | some i =>
      cases hj : findSectionIdx st (t ++ "-form") with
      | none =>
          rw [updateUploadState_uploadStatus_notfound st t s (Or.inr hj)]
          exact hm
      | some j =>
          rw [updateUploadState_uploadStatus_found st t s i j hi hj]
          have hcat := findItemIdx_mem_categories st t i hdom hi
          have hkey : t ∈ st.uploadStatus.map Prod.fst := by
            rw [hm.1]
            exact hcat
          constructor
          · rw [objSet_keys_of_mem _ _ _ hkey]
            exact hm.1
          · intro p hp
            rcases objSet_mem _ _ _ _ hp with h | h
            · rw [h]
              exact hs
            · exact hm.2 p h

theorem checkAllUploadsCompleted_uploadStatus (st : PageState) :
    (checkAllUploadsCompleted st).uploadStatus = st.uploadStatus := by
  unfold checkAllUploadsCompleted
  dsimp only
  split <;> rfl

theorem handleUploadSuccess_uploadStatus (st : PageState) (t : String) :
    (handleUploadSuccess st t).uploadStatus
      = (updateUploadState st t "completed").uploadStatus := by
  unfold handleUploadSuccess
  rw [checkAllUploadsCompleted_uploadStatus]
  rfl

theorem handleRealDjango_wf (st : PageState) (secIdx : Nat) (ut : String)
    (outcome : Except String UploadResponse) (hdom : domCategoriesOnly st)
    (hm : statusMapWellFormed st.uploadStatus) :
    statusMapWellFormed
      (handleRealDjangoSubmission st secIdx ut outcome).uploadStatus := by
  cases outcome with
  | error m =>
      rw [handleRealDjango_failure st secIdx ut (Except.error m) rfl]
      show statusMapWellFormed
        (updateUploadState (emit st _) ut "available").uploadStatus
      exact updateUploadState_wf _ ut "available" hdom hm
        (by simp [validStatusLabels])
  | ok d =>
      cases hd : d.success with
      | true =>
          rw [handleRealDjango_success st secIdx ut d hd,
            handleUploadSuccess_uploadStatus]
          exact updateUploadState_wf _ ut "completed" hdom hm
            (by simp [validStatusLabels])
      | false =>
          rw [handleRealDjango_failure st secIdx ut (Except.ok d)
            (by simp [isFailureOutcome, hd])]
          show statusMapWellFormed
            (updateUploadState (emit st _) ut "available").uploadStatus
          exact updateUploadState_wf _ ut "available" hdom hm
            (by simp [validStatusLabels])

theorem updateUploadState_domOnly (st : PageState) (t s : String)
    (hdom : domCategoriesOnly st) :
    domCategoriesOnly (updateUploadState st t s) :=
  domOnly_of_sub _ st (updateUploadState_items_sub st t s) hdom

theorem foldl_update_wf (s : String) (hs : s ∈ validStatusLabels) :
    ∀ (keys : List String) (st : PageState), domCategoriesOnly st →
      statusMapWellFormed st.uploadStatus →
      domCategoriesOnly (keys.foldl (fun a t => updateUploadState a t s) st) ∧
      statusMapWellFormed
        (keys.foldl (fun a t => updateUploadState a t s) st).uploadStatus
  | [], _, hdom, hm => ⟨hdom, hm⟩
  | k :: ks, st, hdom, hm => by
      simp only [List.foldl_cons]
      exact foldl_update_wf s hs ks _ (updateUploadState_domOnly st k s hdom)
        (updateUploadState_wf st k s hdom hm hs)

theorem resetAllUploads_wf (st : PageState)
    (hdom : domCategoriesOnly st) (hm : statusMapWellFormed st.uploadStatus) :
    statusMapWellFormed (resetAllUploads st).uploadStatus := by
  unfold resetAllUploads
  rw [showToast_uploadStatus]
  exact (foldl_update_wf "available" (by simp [validStatusLabels]) _ st
    hdom hm).2

theorem setButtonLoadingState_domOnly (st : PageState) (k : Nat)
    (hdom : domCategoriesOnly st) :
    domCategoriesOnly (setButtonLoadingState st k) := by
  unfold domCategoriesOnly
  rw [setButtonLoadingState_items]
  exact hdom

theorem handleUploadFailure_uploadStatus (st : PageState) (t : String) :
    (handleUploadFailure st t).uploadStatus
      = (updateUploadState st t "available").uploadStatus := rfl

theorem handleFormSubmission_wf (st : PageState) (secIdx : Nat)
    (outcome : Except String UploadResponse) (st2 : PageState)
    (hdom : domCategoriesOnly st) (hm : statusMapWellFormed st.uploadStatus)
    (h2 : handleFormSubmission st secIdx outcome = some st2) :
    statusMapWellFormed st2.uploadStatus := by
  unfold handleFormSubmission at h2
  split at h2
  · exact Option.noConfusion h2
  · split at h2
    · exact Option.noConfusion h2
    · split at h2
      · simp only [Option.some.injEq] at h2
        subst h2
        exact hm
      · split at h2
        · simp only [Option.some.injEq] at h2
          subst h2
          exact hm
        · simp only [Option.some.injEq] at h2
          subst h2
          apply handleRealDjango_wf
          · exact setButtonLoadingState_domOnly _ _
              (updateUploadState_domOnly st _ _ hdom)
          · rw [setButtonLoadingState_uploadStatus]
            exact updateUploadState_wf st _ "processing" hdom hm
              (by simp [validStatusLabels])

/-- Claim C2: every operation of the user upload page that writes the
upload-status map (`updateUploadState`, `handleUploadSuccess`,
`handleUploadFailure`, `handleFormSubmission`, `resetAllUploads`) preserves
the invariant that `uploadStatus` is a flat mapping from exactly the four
upload-category names to one of the four fixed status labels, and
`saveUploadStatus` serializes exactly this mapping to the
`uploadStatus` session-storage key. -/
theorem claim_C2_status_invariant (st : PageState) (t s : String)
    (secIdx : Nat) (outcome : Except String UploadResponse)
    (hdom : domCategoriesOnly st) (hm : statusMapWellFormed st.uploadStatus)
    (hs : s ∈ validStatusLabels) :
    statusMapWellFormed (updateUploadState st t s).uploadStatus ∧
    statusMapWellFormed (handleUploadSuccess st t).uploadStatus ∧
    statusMapWellFormed (handleUploadFailure st t).uploadStatus ∧
    (∀ st2, handleFormSubmission st secIdx outcome = some st2 →
      statusMapWellFormed st2.uploadStatus) ∧
    statusMapWellFormed (resetAllUploads st).uploadStatus ∧
    objGet (saveUploadStatus st).sessionStorage "uploadStatus"
      = some (stringifyFlat st.uploadStatus) := by
  refine ⟨updateUploadState_wf st t s hdom hm hs, ?_, ?_,
    fun st2 h2 => handleFormSubmission_wf st secIdx outcome st2 hdom hm h2,
    resetAllUploads_wf st hdom hm, ?_⟩
  · rw [handleUploadSuccess_uploadStatus]
    exact updateUploadState_wf st t "completed" hdom hm
      (by simp [validStatusLabels])
  · rw [handleUploadFailure_uploadStatus]
    exact updateUploadState_wf st t "available" hdom hm
      (by simp [validStatusLabels])
  · exact objGet_objSet_self _ _ _

theorem claim_C2_witness :
    domCategoriesOnly samplePage ∧
    statusMapWellFormed samplePage.uploadStatus ∧
    "processing" ∈ validStatusLabels ∧
    (statusMapWellFormed
        (updateUploadState samplePage "temperature" "processing").uploadStatus ∧
      statusMapWellFormed
        (handleUploadSuccess samplePage "temperature").uploadStatus ∧
      statusMapWellFormed
        (handleUploadFailure samplePage "temperature").uploadStatus ∧
      (∀ st2, handleFormSubmission samplePage 0 (.ok sampleOkUpload) = some st2 →
        statusMapWellFormed st2.uploadStatus) ∧
      statusMapWellFormed (resetAllUploads samplePage).uploadStatus ∧
      objGet (saveUploadStatus samplePage).sessionStorage "uploadStatus"
        = some (stringifyFlat samplePage.uploadStatus)) :=
  ⟨by unfold domCategoriesOnly; decide,
    by unfold statusMapWellFormed; decide, by decide,
    claim_C2_status_invariant samplePage "temperature" "processing" 0
      (.ok sampleOkUpload) (by unfold domCategoriesOnly; decide)
      (by unfold statusMapWellFormed; decide) (by decide)⟩
